import Mathlib

/-!
Shallow embedding of the Foot-Insites ETL normalization-and-validation
subsystem (scripts/etl): reference-table building, normalization, the
base/advanced match split, metric derivation and the validator, together
with theorems settling the specification claims about them.

Conventions of the embedding:
* a pandas `DataFrame` is a `List` of structure values, one structure per
  table schema (the column sets fixed by the cleaning stage);
* a nullable column (one that can hold `NaN`) is an `Option` field;
  comparisons against `NaN` are false, mirroring pandas semantics
  (`pdLt`, `pdEq` below);
* columns that the pipeline itself always writes as non-null
  (e.g. `team_id` in `ref_teams`, `match_id` in the split output) are
  plain `Int` fields, so the validator's null checks on them are vacuous
  and are omitted from the embedded validators;
* real-valued columns (xG, possession, percentages) are `ℚ`;
* a Python function that raises `ValidationError` is `Except String Unit`.
-/

namespace FootInsites

/-- pandas-style strict order on nullable values: any comparison with a
missing value (`NaN`) is false. -/
def pdLt {α : Type} [LinearOrder α] : Option α → Option α → Bool
  | some x, some y => decide (x < y)
  | _, _ => false

/-- pandas-style strict greater-than on nullable values. -/
def pdGt {α : Type} [LinearOrder α] (a b : Option α) : Bool :=
  pdLt b a

/-- pandas-style equality on nullable values: `NaN == y` is false. -/
def pdEq {α : Type} [DecidableEq α] : Option α → Option α → Bool
  | some x, some y => decide (x = y)
  | _, _ => false

/-- Nullable addition (`NaN` propagates), as in `df[a] + df[b]`. -/
def pdAdd : Option Int → Option Int → Option Int
  | some x, some y => some (x + y)
  | _, _ => none

/-- Nullable subtraction (`NaN` propagates), as in `df[a] - df[b]`. -/
def pdSub : Option Int → Option Int → Option Int
  | some x, some y => some (x - y)
  | _, _ => none

/-- `[c, c+1, ..., c+n-1]` as integers; used to state sequential-id facts. -/
def intRange (c : Int) (n : Nat) : List Int :=
  (List.range n).map fun (i : Nat) => c + (i : Int)

/-- The `competition_type` tag written for teams first seen in league data. -/
def leagueTag : String := "league"

/-- The `competition_type` tag written for teams first seen in World Cup data. -/
def intlTag : String := "international"

/-- The `primary_competition` value written for World Cup teams. -/
def worldCupName : String := "World Cup"

/-- One row of `clean_league_matches.csv` (schema `FINAL_COLUMNS` of
`clean_leagues.py`): date/time, competition metadata, team names, goal and
shot/foul/corner/card counters, referee.  The numeric counters passed
through `safe_int` and may be null. -/
structure CleanLeagueRow where
  date : String
  time : Option String
  competition_name : String
  season : String
  home_team : String
  away_team : String
  home_goals : Option Int
  away_goals : Option Int
  home_shots : Option Int
  away_shots : Option Int
  home_sot : Option Int
  away_sot : Option Int
  home_fouls : Option Int
  away_fouls : Option Int
  home_corners : Option Int
  away_corners : Option Int
  home_yellow : Option Int
  away_yellow : Option Int
  home_red : Option Int
  away_red : Option Int
  referee : Option String
deriving Repr, DecidableEq

/-- One row of `clean_wc_matches.csv` (schema `FINAL_COLUMNS` of
`clean_wc_matches.py`): no referee and no foul/corner/card columns, but
xG, possession, passing and defensive-action columns plus venue. -/
structure CleanWCRow where
  date : String
  time : Option String
  competition_name : String
  season : String
  home_team : String
  away_team : String
  home_goals : Option Int
  away_goals : Option Int
  home_xg : Option ℚ
  away_xg : Option ℚ
  home_possession : Option ℚ
  away_possession : Option ℚ
  home_shots : Option Int
  away_shots : Option Int
  home_sot : Option Int
  away_sot : Option Int
  home_passes_completed : Option Int
  home_passes_attempted : Option Int
  away_passes_completed : Option Int
  away_passes_attempted : Option Int
  home_tackles : Option Int
  away_tackles : Option Int
  home_interceptions : Option Int
  away_interceptions : Option Int
  home_clearances : Option Int
  away_clearances : Option Int
  home_saves : Option Int
  away_saves : Option Int
  venue : Option String
deriving Repr, DecidableEq

/-- One row of the `ref_teams` dimension table built by
`create_teams_table`. -/
structure TeamRow where
  team_id : Int
  team_name : String
  competition_type : String
  country : Option String
  primary_competition : String
deriving Repr, DecidableEq

/-- The mutable state of the `create_teams_table` loop: the accumulated
`teams_data` list, the running `team_id_counter` and the `seen_teams`
set (a Python `set`, modelled as a list used only through membership). -/
structure TeamsBuildState where
  teams_data : List TeamRow
  team_id_counter : Int
  seen_teams : List String
deriving Repr

/-- The body shared by the four `if row[...] and row[...] not in seen_teams`
blocks of `create_teams_table`: append a new team row with the next id and
mark the name seen; otherwise leave the state unchanged.  The truthiness
test `if row['home_team']` on a string is an emptiness test. -/
def addTeam (ctype : String) (country : Option String) (comp : String)
    (name : String) (st : TeamsBuildState) : TeamsBuildState :=
  if name ≠ "" ∧ name ∉ st.seen_teams then
    { teams_data := st.teams_data ++
        [{ team_id := st.team_id_counter, team_name := name,
           competition_type := ctype, country := country,
           primary_competition := comp }],
      team_id_counter := st.team_id_counter + 1,
      seen_teams := name :: st.seen_teams }
  else st

/-- One iteration of the league loop of `create_teams_table`: home team
first, then away team, both tagged `league` with the row's competition as
`primary_competition` and `country = None`. -/
def teamsStepLeague (st : TeamsBuildState) (row : CleanLeagueRow) : TeamsBuildState :=
  addTeam leagueTag none row.competition_name row.away_team
    (addTeam leagueTag none row.competition_name row.home_team st)

/-- One iteration of the World Cup loop of `create_teams_table`: home team
first, then away team, tagged `international`, `country` set to the team
name and `primary_competition = 'World Cup'`. -/
def teamsStepWC (st : TeamsBuildState) (row : CleanWCRow) : TeamsBuildState :=
  addTeam intlTag (some row.away_team) worldCupName row.away_team
    (addTeam intlTag (some row.home_team) worldCupName row.home_team st)

/-- `create_teams_table` of `create_reference_tables.py`: iterate the league
match rows, then the World Cup match rows, threading the counter/seen
state, and return the accumulated teams table. -/
def create_teams_table (league : List CleanLeagueRow) (wc : List CleanWCRow) :
    List TeamRow :=
  (wc.foldl teamsStepWC
    (league.foldl teamsStepLeague
      { teams_data := [], team_id_counter := 1, seen_teams := [] })).teams_data

/-- One team-name encounter of the id-assignment stream: the name, the
`competition_type` it would be tagged with, and the country /
`primary_competition` values the code would record for it. -/
structure Encounter where
  name : String
  ctype : String
  country : Option String
  comp : String
deriving Repr, DecidableEq

/-- The league portion of the encounter stream: row by row, home before
away. -/
def leagueEncounters (league : List CleanLeagueRow) : List Encounter :=
  league.flatMap fun r =>
    [{ name := r.home_team, ctype := leagueTag, country := none, comp := r.competition_name },
     { name := r.away_team, ctype := leagueTag, country := none, comp := r.competition_name }]

/-- The World Cup portion of the encounter stream: row by row, home before
away. -/
def wcEncounters (wc : List CleanWCRow) : List Encounter :=
  wc.flatMap fun r =>
    [{ name := r.home_team, ctype := intlTag, country := some r.home_team, comp := worldCupName },
     { name := r.away_team, ctype := intlTag, country := some r.away_team, comp := worldCupName }]

/-- Processing one encounter is exactly one `addTeam` block. -/
def encStep (st : TeamsBuildState) (e : Encounter) : TeamsBuildState :=
  addTeam e.ctype e.country e.comp e.name st

/-- Modelled from the spec's words (`§4.1` / claim C1), for comparison with
the source-derived `create_teams_table`: scan the stream of
`(team name, competition_type)` encounters, and the first time a name is
seen assign it the next unused integer id; a name already seen is skipped.
Returns the `(team_id, team_name, competition_type)` triples in assignment
order. -/
def specAssignTeams : Int → List String → List (String × String) →
    List (Int × String × String)
  | _, _, [] => []
  | ctr, seen, (n, ty) :: rest =>
    if n ∈ seen then specAssignTeams ctr seen rest
    else (ctr, n, ty) :: specAssignTeams (ctr + 1) (n :: seen) rest

/-- The projection of a built team row that claim C1 talks about. -/
def teamKey (t : TeamRow) : Int × String × String :=
  (t.team_id, t.team_name, t.competition_type)

lemma foldl_teamsStepLeague_eq (league : List CleanLeagueRow) (st : TeamsBuildState) :
    league.foldl teamsStepLeague st = (leagueEncounters league).foldl encStep st := by
  induction league generalizing st with
  | nil => rfl
  | cons r rs ih =>
    simp only [List.foldl_cons, leagueEncounters, List.flatMap_cons, List.foldl_append,
      List.foldl_cons, List.foldl_nil]
    exact ih _

lemma foldl_teamsStepWC_eq (wc : List CleanWCRow) (st : TeamsBuildState) :
    wc.foldl teamsStepWC st = (wcEncounters wc).foldl encStep st := by
  induction wc generalizing st with
  | nil => rfl
  | cons r rs ih =>
    simp only [List.foldl_cons, wcEncounters, List.flatMap_cons, List.foldl_append,
      List.foldl_cons, List.foldl_nil]
    exact ih _

/-- The encounter fold refines the spec-side assignment, for any starting
state, as long as the encountered names are non-empty. -/
lemma foldl_encStep_spec (es : List Encounter) (st : TeamsBuildState)
    (h : ∀ e ∈ es, e.name ≠ "") :
    ((es.foldl encStep st).teams_data).map teamKey =
      st.teams_data.map teamKey ++
        specAssignTeams st.team_id_counter st.seen_teams
          (es.map fun e => (e.name, e.ctype)) := by
  induction es generalizing st with
  | nil => simp [specAssignTeams]
  | cons e es ih =>
    have hname : e.name ≠ "" := h e (List.mem_cons_self e es)
    have hrest : ∀ x ∈ es, x.name ≠ "" := fun x hx => h x (List.mem_cons_of_mem e hx)
    by_cases hseen : e.name ∈ st.seen_teams
    · have hstep : encStep st e = st := by
        simp [encStep, addTeam, hseen]
      simp only [List.foldl_cons, hstep, List.map_cons, specAssignTeams, if_pos hseen]
      exact ih st hrest
    · have hstep : encStep st e =
          { teams_data := st.teams_data ++
              [{ team_id := st.team_id_counter, team_name := e.name,
                 competition_type := e.ctype, country := e.country,
                 primary_competition := e.comp }],
            team_id_counter := st.team_id_counter + 1,
            seen_teams := e.name :: st.seen_teams } := by
        simp [encStep, addTeam, hseen, hname]
      simp only [List.foldl_cons, hstep, List.map_cons, specAssignTeams, if_neg hseen]
      rw [ih _ hrest]
      simp [teamKey]

lemma intRange_succ (c : Int) (n : Nat) :
    intRange c (n + 1) = c :: intRange (c + 1) n := by
  simp only [intRange, List.range_succ_eq_map, List.map_cons, List.map_map, Nat.cast_zero,
    add_zero]
  congr 1
  refine List.map_congr_left fun i _ => ?_
  simp only [Function.comp_apply, Nat.succ_eq_add_one]
  push_cast
  ring

/-- The ids handed out by the spec-side assignment are consecutive from the
starting counter. -/
lemma specAssignTeams_ids (l : List (String × String)) :
    ∀ ctr seen, (specAssignTeams ctr seen l).map (fun x => x.1) =
      intRange ctr (specAssignTeams ctr seen l).length := by
  induction l with
  | nil => intro ctr seen; simp [specAssignTeams, intRange]
  | cons p rest ih =>
    intro ctr seen
    obtain ⟨n, ty⟩ := p
    by_cases hseen : n ∈ seen
    · simp only [specAssignTeams, if_pos hseen]
      exact ih ctr seen
    · simp only [specAssignTeams, if_neg hseen, List.map_cons, List.length_cons,
        intRange_succ]
      exact congrArg _ (ih (ctr + 1) (n :: seen))

/-- Every name in the spec-side assignment output was unseen at the start. -/
lemma specAssignTeams_names_not_seen (l : List (String × String)) :
    ∀ ctr seen m, m ∈ (specAssignTeams ctr seen l).map (fun x => x.2.1) → m ∉ seen := by
  induction l with
  | nil => intro ctr seen m hm; simp [specAssignTeams] at hm
  | cons p rest ih =>
    intro ctr seen m hm
    obtain ⟨n, ty⟩ := p
    by_cases hseen : n ∈ seen
    · simp only [specAssignTeams, if_pos hseen] at hm
      exact ih ctr seen m hm
    · simp only [specAssignTeams, if_neg hseen, List.map_cons, List.mem_cons] at hm
      rcases hm with hm | hm
      · intro hcon; rw [hm] at hcon; exact hseen hcon
      · have := ih (ctr + 1) (n :: seen) m hm
        intro hcon; exact this (List.mem_cons_of_mem n hcon)

/-- The names in the spec-side assignment output are pairwise distinct. -/
lemma specAssignTeams_names_nodup (l : List (String × String)) :
    ∀ ctr seen, ((specAssignTeams ctr seen l).map (fun x => x.2.1)).Nodup := by
  induction l with
  | nil => intro ctr seen; simp [specAssignTeams]
  | cons p rest ih =>
    intro ctr seen
    obtain ⟨n, ty⟩ := p
    by_cases hseen : n ∈ seen
    · simp only [specAssignTeams, if_pos hseen]; exact ih ctr seen
    · simp only [specAssignTeams, if_neg hseen, List.map_cons, List.nodup_cons]
      refine ⟨fun hmem => ?_, ih (ctr + 1) (n :: seen)⟩
      exact specAssignTeams_names_not_seen rest (ctr + 1) (n :: seen) n hmem
        (List.mem_cons_self n seen)

/-- Membership in the spec-side assignment output: exactly the stream names
that were not already seen. -/
lemma specAssignTeams_mem_names (l : List (String × String)) :
    ∀ ctr seen m, m ∈ (specAssignTeams ctr seen l).map (fun x => x.2.1) ↔
      (m ∈ l.map Prod.fst ∧ m ∉ seen) := by
  induction l with
  | nil => intro ctr seen m; simp [specAssignTeams]
  | cons p rest ih =>
    intro ctr seen m
    obtain ⟨n, ty⟩ := p
    by_cases hseen : n ∈ seen
    · simp only [specAssignTeams, if_pos hseen, List.map_cons, List.mem_cons]
      rw [ih ctr seen m]
      constructor
      · rintro ⟨hm, hns⟩; exact ⟨Or.inr hm, hns⟩
      · rintro ⟨hm | hm, hns⟩
        · exact absurd (hm ▸ hseen) hns
        · exact ⟨hm, hns⟩
    · simp only [specAssignTeams, if_neg hseen, List.map_cons, List.mem_cons]
      rw [ih (ctr + 1) (n :: seen) m]
      constructor
      · rintro (hm | ⟨hm, hns⟩)
        · exact ⟨Or.inl hm, hm ▸ hseen⟩
        · exact ⟨Or.inr hm, fun hc => hns (List.mem_cons_of_mem n hc)⟩
      · rintro ⟨hm | hm, hns⟩
        · exact Or.inl hm
        · by_cases hmn : m = n
          · exact Or.inl hmn
          · exact Or.inr ⟨hm, by simp [List.mem_cons, hmn, hns]⟩

/-- All names encountered in the two match tables are non-empty, given that
the per-row team names are. -/
lemma encounters_names_ne (league : List CleanLeagueRow) (wc : List CleanWCRow)
    (hl : ∀ r ∈ league, r.home_team ≠ "" ∧ r.away_team ≠ "")
    (hw : ∀ r ∈ wc, r.home_team ≠ "" ∧ r.away_team ≠ "") :
    ∀ e ∈ leagueEncounters league ++ wcEncounters wc, e.name ≠ "" := by
  intro e he
  rcases List.mem_append.1 he with he | he
  · obtain ⟨r, hr, he⟩ := List.mem_flatMap.1 he
    simp only [List.mem_cons, List.not_mem_nil, or_false] at he
    rcases he with he | he
    · rw [he]; exact (hl r hr).1
    · rw [he]; exact (hl r hr).2
  · obtain ⟨r, hr, he⟩ := List.mem_flatMap.1 he
    simp only [List.mem_cons, List.not_mem_nil, or_false] at he
    rcases he with he | he
    · rw [he]; exact (hw r hr).1
    · rw [he]; exact (hw r hr).2

/-- C1.  Team surrogate-id assignment: building the Teams table scans the
league matches row by row (home before away) and then the World Cup
matches row by row (home before away); the first time a (non-empty) name
is seen it gets the next unused integer id starting at 1 and is tagged
`league` or `international` according to where it was first seen; a name
already seen is never added again.  Formally: the
`(team_id, team_name, competition_type)` projection of the table built by
the source's `create_teams_table` equals the spec-side first-seen
assignment over the encounter stream. -/
theorem teams_table_assignment (league : List CleanLeagueRow) (wc : List CleanWCRow)
    (hl : ∀ r ∈ league, r.home_team ≠ "" ∧ r.away_team ≠ "")
    (hw : ∀ r ∈ wc, r.home_team ≠ "" ∧ r.away_team ≠ "") :
    (create_teams_table league wc).map teamKey =
      specAssignTeams 1 []
        ((leagueEncounters league ++ wcEncounters wc).map fun e => (e.name, e.ctype)) := by
  unfold create_teams_table
  rw [foldl_teamsStepLeague_eq, foldl_teamsStepWC_eq, ← List.foldl_append]
  have h := foldl_encStep_spec (leagueEncounters league ++ wcEncounters wc)
    { teams_data := [], team_id_counter := 1, seen_teams := [] }
    (encounters_names_ne league wc hl hw)
  simpa using h

/-- A concrete one-row league table used by witnesses. -/
def sampleLeagueRow : CleanLeagueRow :=
  { date := "2022-08-01", time := none, competition_name := "Premier League",
    season := "2022-23", home_team := "Alpha", away_team := "Beta",
    home_goals := some 2, away_goals := some 1, home_shots := some 10,
    away_shots := some 8, home_sot := some 5, away_sot := some 3,
    home_fouls := some 9, away_fouls := some 11, home_corners := some 4,
    away_corners := some 2, home_yellow := some 1, away_yellow := some 2,
    home_red := some 0, away_red := some 0, referee := some "R. Oliver" }

/-- A concrete one-row World Cup table used by witnesses; its home team
repeats the league fixture's away team, so first-seen-wins is exercised. -/
def sampleWCRow : CleanWCRow :=
  { date := "2022-11-21", time := some "16:00", competition_name := "World Cup",
    season := "2022", home_team := "Beta", away_team := "Gamma",
    home_goals := some 0, away_goals := some 0, home_xg := some (3 / 2),
    away_xg := some 1, home_possession := some 55, away_possession := some 45,
    home_shots := some 12, away_shots := some 7, home_sot := some 4, away_sot := some 2,
    home_passes_completed := some 400, home_passes_attempted := some 500,
    away_passes_completed := some 300, away_passes_attempted := some 380,
    home_tackles := some 15, away_tackles := some 18,
    home_interceptions := some 7, away_interceptions := some 9,
    home_clearances := some 12, away_clearances := some 20,
    home_saves := some 2, away_saves := some 4, venue := some "Stadium One" }

/-- Witness for C1: on the concrete fixtures the built table is
Alpha=1 (league), Beta=2 (league, first seen in league even though it also
plays in the World Cup table), Gamma=3 (international). -/
theorem teams_table_assignment_witness :
    (create_teams_table [sampleLeagueRow] [sampleWCRow]).map teamKey =
      [(1, sampleLeagueRow.home_team, leagueTag),
       (2, sampleLeagueRow.away_team, leagueTag),
       (3, sampleWCRow.away_team, intlTag)] := by
  rw [teams_table_assignment [sampleLeagueRow] [sampleWCRow] (by decide) (by decide)]
  rfl

/-- All team names occurring as home or away team in either match table, in
processing order (league first, home before away). -/
def matchTeamNames (league : List CleanLeagueRow) (wc : List CleanWCRow) : List String :=
  (leagueEncounters league ++ wcEncounters wc).map Encounter.name

/-- C3.  Teams-table key invariant: every team name appearing as home or
away team of some match row names exactly one row of the built Teams
table, and the `team_id` column is exactly the contiguous range
`1..N` where `N` is the number of distinct team names. -/
theorem teams_table_key_invariant (league : List CleanLeagueRow) (wc : List CleanWCRow)
    (hl : ∀ r ∈ league, r.home_team ≠ "" ∧ r.away_team ≠ "")
    (hw : ∀ r ∈ wc, r.home_team ≠ "" ∧ r.away_team ≠ "") :
    ((matchTeamNames league wc).all fun n =>
        ((create_teams_table league wc).filter fun t => t.team_name == n).length == 1) = true
    ∧ (create_teams_table league wc).map (fun t => t.team_id) =
        intRange 1 (create_teams_table league wc).length
    ∧ (create_teams_table league wc).length = (matchTeamNames league wc).dedup.length := by
  have hkey := teams_table_assignment league wc hl hw
  set T := create_teams_table league wc with hT
  set es := leagueEncounters league ++ wcEncounters wc with hes
  have hstream : ((es.map fun e => (e.name, e.ctype)).map Prod.fst) =
      matchTeamNames league wc := by
    rw [List.map_map]
    rfl
  have hnames : T.map (fun t => t.team_name) =
      (specAssignTeams 1 [] (es.map fun e => (e.name, e.ctype))).map (fun x => x.2.1) := by
    rw [← hkey, List.map_map]
    rfl
  have hids : T.map (fun t => t.team_id) =
      (specAssignTeams 1 [] (es.map fun e => (e.name, e.ctype))).map (fun x => x.1) := by
    rw [← hkey, List.map_map]
    rfl
  have hlen : T.length = (specAssignTeams 1 [] (es.map fun e => (e.name, e.ctype))).length := by
    have := congrArg List.length hkey
    simpa using this
  have hnodup : (T.map fun t => t.team_name).Nodup := by
    rw [hnames]; exact specAssignTeams_names_nodup _ 1 []
  have hmem : ∀ n, n ∈ T.map (fun t => t.team_name) ↔ n ∈ matchTeamNames league wc := by
    intro n
    rw [hnames, specAssignTeams_mem_names, hstream]
    simp
  refine ⟨?_, ?_, ?_⟩
  · rw [List.all_eq_true]
    intro n hn
    have hcount : (T.filter fun t => t.team_name == n).length =
        (T.map fun t => t.team_name).count n := by
      rw [← List.countP_eq_length_filter]
      rw [List.count, List.countP_map]
      rfl
    have h1 : (T.map fun t => t.team_name).count n = 1 :=
      List.count_eq_one_of_mem hnodup ((hmem n).2 hn)
    simp [hcount, h1]
  · rw [hids, specAssignTeams_ids, hlen]
  · have hdn : (matchTeamNames league wc).dedup.Nodup := (matchTeamNames league wc).nodup_dedup
    have hperm : List.Perm (T.map fun t => t.team_name) (matchTeamNames league wc).dedup :=
      (List.perm_ext_iff_of_nodup hnodup hdn).2 fun a => by
        rw [hmem a, List.mem_dedup]
    have := hperm.length_eq
    simpa using this

/-- Witness for C3 at the concrete one-row fixtures. -/
theorem teams_table_key_invariant_witness :
    ((matchTeamNames [sampleLeagueRow] [sampleWCRow]).all fun n =>
        ((create_teams_table [sampleLeagueRow] [sampleWCRow]).filter
          fun t => t.team_name == n).length == 1) = true
    ∧ (create_teams_table [sampleLeagueRow] [sampleWCRow]).map (fun t => t.team_id) =
        intRange 1 (create_teams_table [sampleLeagueRow] [sampleWCRow]).length
    ∧ (create_teams_table [sampleLeagueRow] [sampleWCRow]).length =
        (matchTeamNames [sampleLeagueRow] [sampleWCRow]).dedup.length :=
  teams_table_key_invariant [sampleLeagueRow] [sampleWCRow] (by decide) (by decide)

/-- Python `dict(zip(keys, vals))` as a lookup: with duplicate keys the
last occurrence wins, hence the reversed association list. -/
def dictGet {β : Type} (l : List (String × β)) (k : String) : Option β :=
  List.lookup k l.reverse

/-- The `team_name → team_id` dictionary
`dict(zip(teams_df['team_name'], teams_df['team_id']))`. -/
def team_name_to_id (teams : List TeamRow) (name : String) : Option Int :=
  dictGet (teams.map fun t => (t.team_name, t.team_id)) name

/-- A normalized league match row: the cleaned row plus the two mapped
team-id columns (null when the name had no dictionary entry). -/
structure NormLeagueRow extends CleanLeagueRow where
  home_team_id : Option Int
  away_team_id : Option Int
deriving Repr, DecidableEq

/-- A normalized World Cup match row. -/
structure NormWCRow extends CleanWCRow where
  home_team_id : Option Int
  away_team_id : Option Int
deriving Repr, DecidableEq

/-- `normalize_matches` of `normalize_data.py`: map each table's
`home_team`/`away_team` through the teams dictionary, keeping all other
columns. -/
def normalize_matches (teams : List TeamRow) (league : List CleanLeagueRow)
    (wc : List CleanWCRow) : List NormLeagueRow × List NormWCRow :=
  (league.map fun r =>
      { toCleanLeagueRow := r,
        home_team_id := team_name_to_id teams r.home_team,
        away_team_id := team_name_to_id teams r.away_team },
   wc.map fun r =>
      { toCleanWCRow := r,
        home_team_id := team_name_to_id teams r.home_team,
        away_team_id := team_name_to_id teams r.away_team })

/-- One row of the `db_matches_base` table produced by `split_matches`
(`BASE_COLUMNS`). -/
structure MatchBaseRow where
  match_id : Int
  competition_name : String
  season : String
  date : String
  time : Option String
  home_team_id : Option Int
  away_team_id : Option Int
  home_goals : Option Int
  away_goals : Option Int
  home_shots : Option Int
  away_shots : Option Int
  home_sot : Option Int
  away_sot : Option Int
  home_fouls : Option Int
  away_fouls : Option Int
  home_corners : Option Int
  away_corners : Option Int
  home_yellow : Option Int
  away_yellow : Option Int
  home_red : Option Int
  away_red : Option Int
  venue : Option String
  referee : Option String
deriving Repr, DecidableEq

/-- One row of the `db_match_stats_advanced` table produced by
`split_matches` (`ADVANCED_COLUMNS`), emitted for World Cup rows only. -/
structure MatchStatsAdvRow where
  match_id : Int
  home_xg : Option ℚ
  away_xg : Option ℚ
  home_possession : Option ℚ
  away_possession : Option ℚ
  home_passes_completed : Option Int
  home_passes_attempted : Option Int
  away_passes_completed : Option Int
  away_passes_attempted : Option Int
  home_tackles : Option Int
  away_tackles : Option Int
  home_interceptions : Option Int
  away_interceptions : Option Int
  home_clearances : Option Int
  away_clearances : Option Int
  home_saves : Option Int
  away_saves : Option Int
deriving Repr, DecidableEq

/-- The base row built from a league match: the league schema has no
`venue` column, so `row.get('venue')` records null; `referee` is taken
from the row. -/
def baseOfLeague (mid : Int) (r : NormLeagueRow) : MatchBaseRow :=
  { match_id := mid, competition_name := r.competition_name, season := r.season,
    date := r.date, time := r.time,
    home_team_id := r.home_team_id, away_team_id := r.away_team_id,
    home_goals := r.home_goals, away_goals := r.away_goals,
    home_shots := r.home_shots, away_shots := r.away_shots,
    home_sot := r.home_sot, away_sot := r.away_sot,
    home_fouls := r.home_fouls, away_fouls := r.away_fouls,
    home_corners := r.home_corners, away_corners := r.away_corners,
    home_yellow := r.home_yellow, away_yellow := r.away_yellow,
    home_red := r.home_red, away_red := r.away_red,
    venue := none, referee := r.referee }

/-- The base row built from a World Cup match: the World Cup schema has no
foul/corner/card columns, so their `row.get(...)` records are null, and
`referee` is written as null explicitly (the source lacks it). -/
def baseOfWC (mid : Int) (r : NormWCRow) : MatchBaseRow :=
  { match_id := mid, competition_name := r.competition_name, season := r.season,
    date := r.date, time := r.time,
    home_team_id := r.home_team_id, away_team_id := r.away_team_id,
    home_goals := r.home_goals, away_goals := r.away_goals,
    home_shots := r.home_shots, away_shots := r.away_shots,
    home_sot := r.home_sot, away_sot := r.away_sot,
    home_fouls := none, away_fouls := none,
    home_corners := none, away_corners := none,
    home_yellow := none, away_yellow := none,
    home_red := none, away_red := none,
    venue := r.venue, referee := none }

/-- The advanced-stats row built from a World Cup match, sharing its
`match_id`. -/
def advOfWC (mid : Int) (r : NormWCRow) : MatchStatsAdvRow :=
  { match_id := mid, home_xg := r.home_xg, away_xg := r.away_xg,
    home_possession := r.home_possession, away_possession := r.away_possession,
    home_passes_completed := r.home_passes_completed,
    home_passes_attempted := r.home_passes_attempted,
    away_passes_completed := r.away_passes_completed,
    away_passes_attempted := r.away_passes_attempted,
    home_tackles := r.home_tackles, away_tackles := r.away_tackles,
    home_interceptions := r.home_interceptions, away_interceptions := r.away_interceptions,
    home_clearances := r.home_clearances, away_clearances := r.away_clearances,
    home_saves := r.home_saves, away_saves := r.away_saves }

/-- One iteration of the league loop of `split_matches`: append a base row
with the current counter value and bump the counter. -/
def splitStepLeague (st : List MatchBaseRow × Int) (r : NormLeagueRow) :
    List MatchBaseRow × Int :=
  (st.1 ++ [baseOfLeague st.2 r], st.2 + 1)

/-- One iteration of the World Cup loop of `split_matches`: append a base
row and an advanced row that share the current counter value, then bump
the counter once. -/
def splitStepWC (st : List MatchBaseRow × List MatchStatsAdvRow × Int) (r : NormWCRow) :
    List MatchBaseRow × List MatchStatsAdvRow × Int :=
  (st.1 ++ [baseOfWC st.2.2 r], st.2.1 ++ [advOfWC st.2.2 r], st.2.2 + 1)

/-- `split_matches` of `split_matches.py`: process the normalized league
matches first, then the normalized World Cup matches, threading a single
`match_id_counter` that starts at 1. -/
def split_matches (league : List NormLeagueRow) (wc : List NormWCRow) :
    List MatchBaseRow × List MatchStatsAdvRow :=
  let lres := league.foldl splitStepLeague ([], 1)
  let wres := wc.foldl splitStepWC (lres.1, [], lres.2)
  (wres.1, wres.2.1)

/-- The base rows a run of the league loop adds, starting the counter at
`c`. -/
def leagueBasesFrom (c : Int) : List NormLeagueRow → List MatchBaseRow
  | [] => []
  | r :: rs => baseOfLeague c r :: leagueBasesFrom (c + 1) rs

/-- The base rows a run of the World Cup loop adds, starting the counter
at `c`. -/
def wcBasesFrom (c : Int) : List NormWCRow → List MatchBaseRow
  | [] => []
  | r :: rs => baseOfWC c r :: wcBasesFrom (c + 1) rs

/-- The advanced rows a run of the World Cup loop adds, starting the
counter at `c`. -/
def wcAdvFrom (c : Int) : List NormWCRow → List MatchStatsAdvRow
  | [] => []
  | r :: rs => advOfWC c r :: wcAdvFrom (c + 1) rs

lemma foldl_splitStepLeague (l : List NormLeagueRow) :
    ∀ (acc : List MatchBaseRow) (c : Int),
      l.foldl splitStepLeague (acc, c) = (acc ++ leagueBasesFrom c l, c + (l.length : Int)) := by
  induction l with
  | nil => intro acc c; simp [leagueBasesFrom]
  | cons r rs ih =>
    intro acc c
    simp only [List.foldl_cons, splitStepLeague, leagueBasesFrom, ih, List.append_assoc,
      List.singleton_append, List.length_cons]
    have harith : c + 1 + (rs.length : Int) = c + ((rs.length + 1 : Nat) : Int) := by
      push_cast; ring
    rw [harith]

lemma foldl_splitStepWC (l : List NormWCRow) :
    ∀ (accB : List MatchBaseRow) (accA : List MatchStatsAdvRow) (c : Int),
      l.foldl splitStepWC (accB, accA, c) =
        (accB ++ wcBasesFrom c l, accA ++ wcAdvFrom c l, c + (l.length : Int)) := by
  induction l with
  | nil => intro accB accA c; simp [wcBasesFrom, wcAdvFrom]
  | cons r rs ih =>
    intro accB accA c
    simp only [List.foldl_cons, splitStepWC, wcBasesFrom, wcAdvFrom, ih, List.append_assoc,
      List.singleton_append, List.length_cons]
    have harith : c + 1 + (rs.length : Int) = c + ((rs.length + 1 : Nat) : Int) := by
      push_cast; ring
    rw [harith]

lemma leagueBasesFrom_ids (l : List NormLeagueRow) :
    ∀ c, (leagueBasesFrom c l).map (fun b => b.match_id) = intRange c l.length := by
  induction l with
  | nil => intro c; simp [leagueBasesFrom, intRange]
  | cons r rs ih =>
    intro c
    simp only [leagueBasesFrom, List.map_cons, List.length_cons, intRange_succ, baseOfLeague]
    exact congrArg _ (ih (c + 1))

lemma wcBasesFrom_ids (l : List NormWCRow) :
    ∀ c, (wcBasesFrom c l).map (fun b => b.match_id) = intRange c l.length := by
  induction l with
  | nil => intro c; simp [wcBasesFrom, intRange]
  | cons r rs ih =>
    intro c
    simp only [wcBasesFrom, List.map_cons, List.length_cons, intRange_succ, baseOfWC]
    exact congrArg _ (ih (c + 1))

lemma wcAdvFrom_ids (l : List NormWCRow) :
    ∀ c, (wcAdvFrom c l).map (fun a => a.match_id) = intRange c l.length := by
  induction l with
  | nil => intro c; simp [wcAdvFrom, intRange]
  | cons r rs ih =>
    intro c
    simp only [wcAdvFrom, List.map_cons, List.length_cons, intRange_succ, advOfWC]
    exact congrArg _ (ih (c + 1))

lemma wcBasesFrom_referee (l : List NormWCRow) :
    ∀ c, (wcBasesFrom c l).map (fun b => b.referee) = List.replicate l.length none := by
  induction l with
  | nil => intro c; simp [wcBasesFrom]
  | cons r rs ih =>
    intro c
    simp only [wcBasesFrom, List.map_cons, List.length_cons, List.replicate_succ, baseOfWC]
    exact congrArg _ (ih (c + 1))

lemma intRange_length (c : Int) (n : Nat) : (intRange c n).length = n := by
  simp [intRange]

lemma intRange_add (c : Int) (m n : Nat) :
    intRange c (m + n) = intRange c m ++ intRange (c + (m : Int)) n := by
  induction m generalizing c with
  | zero => simp [intRange]
  | succ k ih =>
    have h1 : k + 1 + n = (k + n) + 1 := by ring
    rw [h1, intRange_succ, intRange_succ, ih (c + 1), List.cons_append]
    have h2 : c + 1 + (k : Int) = c + ((k : Nat) + 1 : Nat) := by push_cast; ring
    rw [h2]

/-- C2.  Match-splitter guarantee: the base table has exactly one row per
input match (league first, then World Cup), with `match_id` assigned
sequentially from 1 across the whole stream; the advanced table has
exactly one row per World Cup match and zero for league matches, each
sharing the `match_id` of the corresponding base row; and every
World-Cup-derived base row has `referee = null`. -/
theorem split_matches_contract (league : List NormLeagueRow) (wc : List NormWCRow) :
    (split_matches league wc).1.length = league.length + wc.length
    ∧ (split_matches league wc).1.map (fun b => b.match_id) =
        intRange 1 (league.length + wc.length)
    ∧ (split_matches league wc).2.length = wc.length
    ∧ (split_matches league wc).2.map (fun a => a.match_id) =
        ((split_matches league wc).1.drop league.length).map (fun b => b.match_id)
    ∧ (split_matches league wc).2.map (fun a => a.match_id) =
        intRange (1 + (league.length : Int)) wc.length
    ∧ ((split_matches league wc).1.drop league.length).map (fun b => b.referee) =
        List.replicate wc.length none := by
  have hsplit : split_matches league wc =
      (leagueBasesFrom 1 league ++ wcBasesFrom (1 + (league.length : Int)) wc,
       wcAdvFrom (1 + (league.length : Int)) wc) := by
    unfold split_matches
    simp only [foldl_splitStepLeague, foldl_splitStepWC, List.nil_append]
  have hlenL : (leagueBasesFrom 1 league).length = league.length := by
    have := congrArg List.length (leagueBasesFrom_ids league 1)
    simpa [intRange_length] using this
  have hdrop : ((leagueBasesFrom 1 league ++ wcBasesFrom (1 + (league.length : Int)) wc).drop
      league.length) = wcBasesFrom (1 + (league.length : Int)) wc := by
    rw [← hlenL, List.drop_left]
  have hlenW : (wcBasesFrom (1 + (league.length : Int)) wc).length = wc.length := by
    have := congrArg List.length (wcBasesFrom_ids wc (1 + (league.length : Int)))
    simpa [intRange_length] using this
  have hlenA : (wcAdvFrom (1 + (league.length : Int)) wc).length = wc.length := by
    have := congrArg List.length (wcAdvFrom_ids wc (1 + (league.length : Int)))
    simpa [intRange_length] using this
  rw [hsplit]
  refine ⟨?_, ?_, ?_, ?_, ?_, ?_⟩
  · simp [hlenL, hlenW]
  · rw [List.map_append, leagueBasesFrom_ids, wcBasesFrom_ids, intRange_add]
  · exact hlenA
  · rw [hdrop, wcAdvFrom_ids, wcBasesFrom_ids]
  · exact wcAdvFrom_ids wc _
  · rw [hdrop, wcBasesFrom_referee]

/-- Result tag for a home win. -/
def resH : String := "H"

/-- Result tag for an away win. -/
def resA : String := "A"

/-- Result tag for a draw (also the fallback when a goal value is null). -/
def resD : String := "D"

/-- Enhanced base match row: `derive_match_metrics` adds goal difference,
total goals, total cards, the two shot accuracies and the result tag. -/
structure EnhMatchRow extends MatchBaseRow where
  goal_difference : Option Int
  total_goals : Option Int
  total_cards : Int
  home_shot_accuracy : Option ℚ
  away_shot_accuracy : Option ℚ
  result : String
deriving Repr, DecidableEq

/-- The per-row computation of `derive_match_metrics` on the base table:
`goal_difference`/`total_goals` propagate nulls, `total_cards` treats
nulls as zero (`fillna(0)`), shot accuracy is defined only when the shots
count is present and positive (a null shots-on-target then propagates),
and `result` compares goals with pandas null semantics (both strict
comparisons false on a null, giving the draw branch). -/
def deriveMatchRow (r : MatchBaseRow) : EnhMatchRow :=
  { toMatchBaseRow := r,
    goal_difference := pdSub r.home_goals r.away_goals,
    total_goals := pdAdd r.home_goals r.away_goals,
    total_cards := r.home_yellow.getD 0 + r.away_yellow.getD 0 +
      r.home_red.getD 0 + r.away_red.getD 0,
    home_shot_accuracy :=
      match r.home_shots with
      | some s => if 0 < s then r.home_sot.map (fun t => (t : ℚ) / (s : ℚ) * 100) else none
      | none => none,
    away_shot_accuracy :=
      match r.away_shots with
      | some s => if 0 < s then r.away_sot.map (fun t => (t : ℚ) / (s : ℚ) * 100) else none
      | none => none,
    result :=
      if pdGt r.home_goals r.away_goals then resH
      else if pdGt r.away_goals r.home_goals then resA
      else resD }

/-- Enhanced advanced-stats row: `derive_match_metrics` adds the two pass
accuracies, the possession delta and the xG difference. -/
structure EnhAdvRow extends MatchStatsAdvRow where
  home_pass_accuracy : Option ℚ
  away_pass_accuracy : Option ℚ
  possession_delta : Option ℚ
  xg_difference : Option ℚ
deriving Repr, DecidableEq

/-- The per-row computation of `derive_match_metrics` on the advanced
table. -/
def deriveAdvRow (r : MatchStatsAdvRow) : EnhAdvRow :=
  { toMatchStatsAdvRow := r,
    home_pass_accuracy :=
      match r.home_passes_attempted with
      | some a => if 0 < a then r.home_passes_completed.map (fun c => (c : ℚ) / (a : ℚ) * 100)
          else none
      | none => none,
    away_pass_accuracy :=
      match r.away_passes_attempted with
      | some a => if 0 < a then r.away_passes_completed.map (fun c => (c : ℚ) / (a : ℚ) * 100)
          else none
      | none => none,
    possession_delta :=
      match r.home_possession, r.away_possession with
      | some h, some a => some (h - a)
      | _, _ => none,
    xg_difference :=
      match r.home_xg, r.away_xg with
      | some h, some a => some (h - a)
      | _, _ => none }

/-- `derive_match_metrics` of `derive_metrics.py`: row-wise enhancement of
the base table and, when present, the advanced table. -/
def derive_match_metrics (base : List MatchBaseRow) (adv : List MatchStatsAdvRow) :
    List EnhMatchRow × List EnhAdvRow :=
  (base.map deriveMatchRow, adv.map deriveAdvRow)

/-- One row of `normalized_wc_players.csv` (the merged player-stats schema
of `clean_wc_players.py` plus the ids attached by `normalize_players`). -/
structure NormPlayerRow where
  player_id : Option Int
  team_id : Option Int
  player : String
  team : String
  position : Option String
  age : Option Int
  minutes : Option Int
  games : Option Int
  goals : Option Int
  assists : Option Int
  shots : Option Int
  shots_on_target : Option Int
  passes_completed : Option Int
  passes : Option Int
  passes_pct : Option ℚ
  tackles : Option Int
  interceptions : Option Int
  clearances : Option Int
  touches : Option Int
  dispossessed : Option Int
  xg : Option ℚ
  xg_assist : Option ℚ
deriving Repr, DecidableEq

/-- Enhanced player row: `derive_player_metrics` adds per-game rates,
shot efficiency, shots-on-target percentage and goal contributions. -/
structure EnhPlayerRow extends NormPlayerRow where
  goals_per_game : Option ℚ
  assists_per_game : Option ℚ
  shot_efficiency : Option ℚ
  sot_percentage : Option ℚ
  goal_contributions : Int
  contributions_per_game : Option ℚ
deriving Repr, DecidableEq

/-- The per-row computation of `derive_player_metrics`: each ratio is
defined only when its denominator is present and positive (a null
numerator then propagates); `goal_contributions` treats null goals and
assists as zero, and `contributions_per_game` divides the just-computed
contributions value. -/
def derivePlayerRow (r : NormPlayerRow) : EnhPlayerRow :=
  let contrib : Int := r.goals.getD 0 + r.assists.getD 0
  { toNormPlayerRow := r,
    goals_per_game :=
      match r.games with
      | some g => if 0 < g then r.goals.map (fun x => (x : ℚ) / (g : ℚ)) else none
      | none => none,
    assists_per_game :=
      match r.games with
      | some g => if 0 < g then r.assists.map (fun x => (x : ℚ) / (g : ℚ)) else none
      | none => none,
    shot_efficiency :=
      match r.shots with
      | some s => if 0 < s then r.goals.map (fun x => (x : ℚ) / (s : ℚ) * 100) else none
      | none => none,
    sot_percentage :=
      match r.shots with
      | some s => if 0 < s then r.shots_on_target.map (fun x => (x : ℚ) / (s : ℚ) * 100)
          else none
      | none => none,
    goal_contributions := contrib,
    contributions_per_game :=
      match r.games with
      | some g => if 0 < g then some ((contrib : ℚ) / (g : ℚ)) else none
      | none => none }

/-- `derive_player_metrics` of `derive_metrics.py`. -/
def derive_player_metrics (df : List NormPlayerRow) : List EnhPlayerRow :=
  df.map derivePlayerRow

/-- One row of `clean_wc_standings.csv` (schema `FINAL_COLUMNS` of
`clean_wc_standings.py`). -/
structure StandingRow where
  group : String
  rank : Int
  team : String
  played : Int
  wins : Int
  draws : Int
  losses : Int
  goals_for : Int
  goals_against : Int
  goal_difference : Int
  points : Int
deriving Repr, DecidableEq

/-- Enhanced standings row: `derive_standings_metrics` adds win
percentage, points per game, goals per game and the simplified
`clean_sheets = played - losses`. -/
structure EnhStandingRow extends StandingRow where
  win_percentage : Option ℚ
  points_per_game : Option ℚ
  goals_per_game : Option ℚ
  clean_sheets : Int
deriving Repr, DecidableEq

/-- The per-row computation of `derive_standings_metrics`. -/
def deriveStandingRow (r : StandingRow) : EnhStandingRow :=
  { toStandingRow := r,
    win_percentage := if 0 < r.played then some ((r.wins : ℚ) / (r.played : ℚ) * 100) else none,
    points_per_game := if 0 < r.played then some ((r.points : ℚ) / (r.played : ℚ)) else none,
    goals_per_game := if 0 < r.played then some ((r.goals_for : ℚ) / (r.played : ℚ)) else none,
    clean_sheets := r.played - r.losses }

/-- `derive_standings_metrics` of `derive_metrics.py`. -/
def derive_standings_metrics (df : List StandingRow) : List EnhStandingRow :=
  df.map deriveStandingRow

/-- C4.  Derived-metric definedness and round trip: every ratio metric of
the deriver is null (never a zero placeholder, and the Lean functions are
total, so never an exception) when its denominator is missing or zero; and
for a player row whose (preserved) `shots` column is positive, the stored
`shot_efficiency` is exactly `goals / shots * 100` recomputed from the
enhanced row's own `goals` and `shots` columns (null goals propagating to
a null efficiency). -/
theorem derived_metrics_null_safety (r : NormPlayerRow) (m : MatchBaseRow)
    (a : MatchStatsAdvRow) :
    ((derivePlayerRow r).goals = r.goals ∧ (derivePlayerRow r).shots = r.shots)
    ∧ (∀ s : Int, (derivePlayerRow r).shots = some s → 0 < s →
        (derivePlayerRow r).shot_efficiency =
          (derivePlayerRow r).goals.map fun g => (g : ℚ) / (s : ℚ) * 100)
    ∧ ((r.shots = none ∨ r.shots = some 0) → (derivePlayerRow r).shot_efficiency = none)
    ∧ ((r.shots = none ∨ r.shots = some 0) → (derivePlayerRow r).sot_percentage = none)
    ∧ ((r.games = none ∨ r.games = some 0) →
        (derivePlayerRow r).goals_per_game = none
        ∧ (derivePlayerRow r).assists_per_game = none
        ∧ (derivePlayerRow r).contributions_per_game = none)
    ∧ ((m.home_shots = none ∨ m.home_shots = some 0) →
        (deriveMatchRow m).home_shot_accuracy = none)
    ∧ ((m.away_shots = none ∨ m.away_shots = some 0) →
        (deriveMatchRow m).away_shot_accuracy = none)
    ∧ ((a.home_passes_attempted = none ∨ a.home_passes_attempted = some 0) →
        (deriveAdvRow a).home_pass_accuracy = none)
    ∧ ((a.away_passes_attempted = none ∨ a.away_passes_attempted = some 0) →
        (deriveAdvRow a).away_pass_accuracy = none) := by
  refine ⟨⟨rfl, rfl⟩, ?_, ?_, ?_, ?_, ?_, ?_, ?_, ?_⟩
  · intro s hs hpos
    have hr : r.shots = some s := hs
    simp [derivePlayerRow, hr, hpos]
  · rintro (h | h) <;> simp [derivePlayerRow, h]
  · rintro (h | h) <;> simp [derivePlayerRow, h]
  · rintro (h | h) <;> simp [derivePlayerRow, h]
  · rintro (h | h) <;> simp [deriveMatchRow, h]
  · rintro (h | h) <;> simp [deriveMatchRow, h]
  · rintro (h | h) <;> simp [deriveAdvRow, h]
  · rintro (h | h) <;> simp [deriveAdvRow, h]

/-- A concrete player row used by the C4 witness: 2 goals from 4 shots. -/
def samplePlayerRow : NormPlayerRow :=
  { player_id := some 1, team_id := some 1, player := "P. Player", team := "Alpha",
    position := some "FW", age := some 25, minutes := some 9, games := some 4,
    goals := some 2, assists := some 1, shots := some 4, shots_on_target := some 3,
    passes_completed := some 80, passes := some 100, passes_pct := some 80,
    tackles := some 2, interceptions := some 1, clearances := some 0,
    touches := some 200, dispossessed := some 3, xg := some (3 / 2),
    xg_assist := some (1 / 2) }

/-- A concrete base match row with a null away-goals value. -/
def sampleNullGoalsRow : MatchBaseRow :=
  { match_id := 1, competition_name := "Premier League", season := "2022-23",
    date := "2022-08-01", time := none, home_team_id := some 1, away_team_id := some 2,
    home_goals := some 2, away_goals := none, home_shots := some 10, away_shots := some 0,
    home_sot := some 5, away_sot := some 0, home_fouls := none, away_fouls := none,
    home_corners := none, away_corners := none, home_yellow := some 1,
    away_yellow := none, home_red := none, away_red := none, venue := none,
    referee := none }

/-- A concrete advanced-stats row with a null attempted-passes value. -/
def sampleAdvRowNull : MatchStatsAdvRow :=
  { match_id := 1, home_xg := some 1, away_xg := none, home_possession := some 55,
    away_possession := some 45, home_passes_completed := some 300,
    home_passes_attempted := none, away_passes_completed := some 250,
    away_passes_attempted := some 0, home_tackles := none, away_tackles := none,
    home_interceptions := none, away_interceptions := none, home_clearances := none,
    away_clearances := none, home_saves := none, away_saves := none }

/-- Witness for C4: at the sample rows, the positive-shots round trip gives
efficiency 50, and the zero/null denominators give null metrics. -/
theorem derived_metrics_null_safety_witness :
    (derivePlayerRow samplePlayerRow).shot_efficiency = some 50
    ∧ (deriveMatchRow sampleNullGoalsRow).away_shot_accuracy = none
    ∧ (deriveAdvRow sampleAdvRowNull).home_pass_accuracy = none := by
  have h := derived_metrics_null_safety samplePlayerRow sampleNullGoalsRow sampleAdvRowNull
  refine ⟨?_, ?_, ?_⟩
  · have h2 := h.2.1 4 rfl (by norm_num)
    rw [h2]
    norm_num [derivePlayerRow, samplePlayerRow]
  · exact h.2.2.2.2.2.2.1 (Or.inr rfl)
  · exact h.2.2.2.2.2.2.2.1 (Or.inl rfl)

/-- C10.  In the match-metric deriver, a null goal value on either side
makes both strict comparisons false, so the recorded `result` is the draw
tag `D`; the tags `H` and `A` are recorded only when both goal values are
present and unequal. -/
theorem match_result_null_is_draw (m : MatchBaseRow) :
    ((m.home_goals = none ∨ m.away_goals = none) → (deriveMatchRow m).result = resD)
    ∧ ((deriveMatchRow m).result = resH ∨ (deriveMatchRow m).result = resA →
        ∃ hg ag, m.home_goals = some hg ∧ m.away_goals = some ag ∧ hg ≠ ag) := by
  constructor
  · rintro (h | h) <;> simp [deriveMatchRow, pdGt, pdLt, h]
  · intro hres
    cases hg : m.home_goals with
    | none =>
      rw [show (deriveMatchRow m).result = resD by
        simp [deriveMatchRow, pdGt, pdLt, hg]] at hres
      rcases hres with hres | hres <;> simp [resD, resH, resA] at hres
    | some x =>
      cases ha : m.away_goals with
      | none =>
        rw [show (deriveMatchRow m).result = resD by
          simp [deriveMatchRow, pdGt, pdLt, ha]] at hres
        rcases hres with hres | hres <;> simp [resD, resH, resA] at hres
      | some y =>
        refine ⟨x, y, rfl, rfl, fun hxy => ?_⟩
        rw [show (deriveMatchRow m).result = resD by
          simp [deriveMatchRow, pdGt, pdLt, hg, ha, hxy]] at hres
        rcases hres with hres | hres <;> simp [resD, resH, resA] at hres

/-- Witness for C10: the sample row with a null away-goals value is
recorded as a draw even though the home side scored. -/
theorem match_result_null_is_draw_witness :
    (deriveMatchRow sampleNullGoalsRow).result = resD :=
  (match_result_null_is_draw sampleNullGoalsRow).1 (Or.inr rfl)

/-- One row of `clean_wc_players.csv` (schema `FINAL_COLUMNS` of
`clean_wc_players.py`, the merged six-extract player table). -/
structure CleanPlayerRow where
  player : String
  team : String
  position : Option String
  age : Option Int
  minutes : Option Int
  games : Option Int
  goals : Option Int
  assists : Option Int
  shots : Option Int
  shots_on_target : Option Int
  passes_completed : Option Int
  passes : Option Int
  passes_pct : Option ℚ
  tackles : Option Int
  interceptions : Option Int
  clearances : Option Int
  touches : Option Int
  dispossessed : Option Int
  xg : Option ℚ
  xg_assist : Option ℚ
deriving Repr, DecidableEq

/-- One row of the `ref_players` dimension table built by
`create_players_table`. -/
structure PlayerRow where
  player_id : Int
  player_name : String
  team_id : Option Int
  team_name : String
  position : Option String
  age : Option Int
deriving Repr, DecidableEq

/-- `create_players_table` of `create_reference_tables.py`: `player_id` is
the 1-based row index, `team_id` is the dictionary lookup of the row's
team name (null on a miss, via `dict.get`), and the team name is kept for
reference. -/
def create_players_table (teams : List TeamRow) (df : List CleanPlayerRow) :
    List PlayerRow :=
  df.enum.map fun p =>
    { player_id := (p.1 : Int) + 1,
      player_name := p.2.player,
      team_id := team_name_to_id teams p.2.team,
      team_name := p.2.team,
      position := p.2.position,
      age := p.2.age }

/-- `Series.duplicated().any()`: does the list repeat a value? -/
def hasDup {α : Type} [DecidableEq α] (l : List α) : Bool :=
  l.dedup.length != l.length

def dupTeamIdMsg : String := "Duplicate team_ids found"

def teamCountMsg : String := "Unexpected team count (expected 100-150)"

def compTypeMsg : String := "Invalid competition_type values found"

def nullPlayerTeamIdMsg : String := "ref_players contains NULL team_id (FK violation)"

def dupPlayerIdMsg : String := "Duplicate player_ids found"

def playerFKMsg : String := "Players reference non-existent team_ids"

def playerCountMsg : String := "Unexpected player count (expected 600-800)"

def ageRangeMsg : String := "Invalid age range (expected 15-45)"

/-- `validate_reference_tables` of `validate_data.py`, over in-memory
tables.  The null checks on the always-written integer key columns
(`team_id` of teams, `player_id` of players) are vacuous in this embedding
and omitted; the checks appear in source order otherwise. -/
def validate_reference_tables (teams : List TeamRow) (players : List PlayerRow) :
    Except String Unit :=
  if hasDup (teams.map fun t => t.team_id) then .error dupTeamIdMsg
  else if teams.length < 100 ∨ 150 < teams.length then .error teamCountMsg
  else if teams.any (fun t => !(t.competition_type == leagueTag ||
      t.competition_type == intlTag)) then .error compTypeMsg
  else if players.any (fun p => p.team_id.isNone) then .error nullPlayerTeamIdMsg
  else if hasDup (players.map fun p => p.player_id) then .error dupPlayerIdMsg
  else if (players.filterMap fun p => p.team_id).any
      (fun t => !((teams.map fun x => x.team_id).contains t)) then .error playerFKMsg
  else if players.length < 600 ∨ 800 < players.length then .error playerCountMsg
  else if (players.filterMap fun p => p.age).any (fun a => decide (a < 15))
      || (players.filterMap fun p => p.age).any (fun a => decide (45 < a)) then
    .error ageRangeMsg
  else .ok ()

/-- C8.  Mapping-miss handling: the players builder is total, producing one
row per input row whose `team_id` is exactly the dictionary lookup of its
team name (so a miss records null rather than raising); and whenever the
reference-table validator accepts, every built player row has a non-null
`team_id`. -/
theorem players_mapping_miss (teams : List TeamRow) (df : List CleanPlayerRow) :
    (create_players_table teams df).length = df.length
    ∧ (∀ p ∈ create_players_table teams df, p.team_id = team_name_to_id teams p.team_name)
    ∧ (validate_reference_tables teams (create_players_table teams df) = .ok () →
        (create_players_table teams df).all (fun p => p.team_id.isSome) = true) := by
  refine ⟨by simp [create_players_table], ?_, ?_⟩
  · intro p hp
    obtain ⟨q, _, hq⟩ := List.mem_map.1 hp
    rw [← hq]
  · intro hv
    unfold validate_reference_tables at hv
    split_ifs at hv with h1 h2 h3 h4 h5 h6 h7 h8
    rw [List.all_eq_true]
    intro p hp
    have h4' : (create_players_table teams df).any (fun p => p.team_id.isNone) = false := by
      exact Bool.not_eq_true _ ▸ h4
    have := List.any_eq_false.1 h4' p hp
    cases hpt : p.team_id with
    | none => exact absurd (by rw [hpt]; rfl) this
    | some t => rfl

lemma intRange_nodup (c : Int) (n : Nat) : (intRange c n).Nodup := by
  unfold intRange
  refine List.Nodup.map ?_ (List.nodup_range n)
  intro a b hab
  have h := add_left_cancel hab
  exact_mod_cast h

lemma hasDup_eq_false {α : Type} [DecidableEq α] {l : List α} (h : l.Nodup) :
    hasDup l = false := by
  unfold hasDup
  rw [List.dedup_eq_self.2 h]
  simp

lemma create_players_ids (teams : List TeamRow) (df : List CleanPlayerRow) :
    (create_players_table teams df).map (fun p => p.player_id) = intRange 1 df.length := by
  have h : (create_players_table teams df).map (fun p => p.player_id) =
      (df.enum.map Prod.fst).map fun (i : Nat) => (i : Int) + 1 := by
    unfold create_players_table
    rw [List.map_map, List.map_map]
    rfl
  rw [h, List.enum_map_fst]
  unfold intRange
  exact List.map_congr_left fun i _ => by ring

/-- A 100-row teams table with ids 1..100, used to satisfy the validator's
cardinality bound in the C8 witness. -/
def teams100 : List TeamRow :=
  (List.range 100).map fun (i : Nat) =>
    { team_id := (i : Int) + 1, team_name := String.append "T" (toString i),
      competition_type := leagueTag, country := none, primary_competition := "L" }

/-- The team name shared by all rows of the 600-player fixture: the last
name of `teams100`. -/
def bigTeamName : String := String.append "T" (toString 99)

/-- A 600-row cleaned player table, all rows on the same existing team, so
that every lookup resolves and the validator's bounds are met. -/
def clean600 : List CleanPlayerRow :=
  (List.range 600).map fun (i : Nat) =>
    { player := String.append "P" (toString i), team := bigTeamName,
      position := none, age := some 20, minutes := none, games := none,
      goals := none, assists := none, shots := none, shots_on_target := none,
      passes_completed := none, passes := none, passes_pct := none,
      tackles := none, interceptions := none, clearances := none,
      touches := none, dispossessed := none, xg := none, xg_assist := none }

lemma teams100_ids : teams100.map (fun t => t.team_id) = intRange 1 100 := by
  unfold teams100 intRange
  rw [List.map_map]
  exact List.map_congr_left fun i _ => by
    show (i : Int) + 1 = 1 + (i : Int)
    ring

lemma teams100_len : teams100.length = 100 := by simp [teams100]

lemma players600_len : (create_players_table teams100 clean600).length = 600 := by
  simp [create_players_table, clean600]

lemma clean600_team : ∀ r ∈ clean600, r.team = bigTeamName := by
  intro r hr
  obtain ⟨i, _, hi⟩ := List.mem_map.1 hr
  rw [← hi]

lemma clean600_age : ∀ r ∈ clean600, r.age = some 20 := by
  intro r hr
  obtain ⟨i, _, hi⟩ := List.mem_map.1 hr
  rw [← hi]

lemma players600_team_id :
    ∀ p ∈ create_players_table teams100 clean600, p.team_id = some 100 := by
  intro p hp
  obtain ⟨q, hq, hq2⟩ := List.mem_map.1 hp
  have hq3 : q.2 ∈ clean600 := List.snd_mem_of_mem_enum hq
  rw [← hq2]
  show team_name_to_id teams100 q.2.team = some 100
  rw [clean600_team q.2 hq3]
  decide

lemma players600_age :
    ∀ p ∈ create_players_table teams100 clean600, p.age = some 20 := by
  intro p hp
  obtain ⟨q, hq, hq2⟩ := List.mem_map.1 hp
  have hq3 : q.2 ∈ clean600 := List.snd_mem_of_mem_enum hq
  rw [← hq2]
  show q.2.age = some 20
  exact clean600_age q.2 hq3

lemma validate_ok_big :
    validate_reference_tables teams100 (create_players_table teams100 clean600) =
      .ok () := by
  have b1 : hasDup (teams100.map fun t => t.team_id) = false := by
    rw [teams100_ids]; exact hasDup_eq_false (intRange_nodup 1 100)
  have b3 : (teams100.any fun t => !(t.competition_type == leagueTag ||
      t.competition_type == intlTag)) = false := by
    refine List.any_eq_false.2 fun t ht => ?_
    obtain ⟨i, _, hi⟩ := List.mem_map.1 ht
    rw [← hi]
    simp
  have b4 : ((create_players_table teams100 clean600).any fun p => p.team_id.isNone) = false := by
    refine List.any_eq_false.2 fun p hp => ?_
    rw [players600_team_id p hp]
    simp
  have b5 : hasDup ((create_players_table teams100 clean600).map fun p => p.player_id) = false := by
    rw [create_players_ids]
    exact hasDup_eq_false (intRange_nodup 1 _)
  have b6 : (((create_players_table teams100 clean600).filterMap fun p => p.team_id).any
      fun t => !((teams100.map fun x => x.team_id).contains t)) = false := by
    refine List.any_eq_false.2 fun t ht => ?_
    obtain ⟨p, hp, hpt⟩ := List.mem_filterMap.1 ht
    rw [players600_team_id p hp] at hpt
    obtain rfl : (100 : Int) = t := Option.some.inj hpt
    have hc : ((teams100.map fun x => x.team_id).contains (100 : Int)) = true := by decide
    rw [hc]
    decide
  have b8a : (((create_players_table teams100 clean600).filterMap fun p => p.age).any
      fun a => decide (a < 15)) = false := by
    refine List.any_eq_false.2 fun a ha => ?_
    obtain ⟨p, hp, hpa⟩ := List.mem_filterMap.1 ha
    rw [players600_age p hp] at hpa
    obtain rfl : (20 : Int) = a := Option.some.inj hpa
    simp
  have b8b : (((create_players_table teams100 clean600).filterMap fun p => p.age).any
      fun a => decide (45 < a)) = false := by
    refine List.any_eq_false.2 fun a ha => ?_
    obtain ⟨p, hp, hpa⟩ := List.mem_filterMap.1 ha
    rw [players600_age p hp] at hpa
    obtain rfl : (20 : Int) = a := Option.some.inj hpa
    simp
  have c1 : ¬ (hasDup (teams100.map fun t => t.team_id) = true) := by rw [b1]; decide
  have c2 : ¬ (teams100.length < 100 ∨ 150 < teams100.length) := by
    rw [teams100_len]; decide
  have c3 : ¬ ((teams100.any fun t => !(t.competition_type == leagueTag ||
      t.competition_type == intlTag)) = true) := by rw [b3]; decide
  have c4 : ¬ (((create_players_table teams100 clean600).any
      fun p => p.team_id.isNone) = true) := by rw [b4]; decide
  have c5 : ¬ (hasDup ((create_players_table teams100 clean600).map
      fun p => p.player_id) = true) := by rw [b5]; decide
  have c6 : ¬ ((((create_players_table teams100 clean600).filterMap fun p => p.team_id).any
      fun t => !((teams100.map fun x => x.team_id).contains t)) = true) := by rw [b6]; decide
  have c7 : ¬ ((create_players_table teams100 clean600).length < 600 ∨
      800 < (create_players_table teams100 clean600).length) := by
    rw [players600_len]; decide
  have c8 : ¬ (((((create_players_table teams100 clean600).filterMap fun p => p.age).any
        fun a => decide (a < 15))
      || (((create_players_table teams100 clean600).filterMap fun p => p.age).any
        fun a => decide (45 < a))) = true) := by
    rw [b8a, b8b]; decide
  unfold validate_reference_tables
  rw [if_neg c1, if_neg c2, if_neg c3, if_neg c4, if_neg c5, if_neg c6, if_neg c7, if_neg c8]

/-- Witness for C8: on the concrete 100-team / 600-player fixture the
validator accepts, and the claim theorem then yields that every built
player row resolved its team id. -/
theorem players_mapping_miss_witness :
    (create_players_table teams100 clean600).length = clean600.length
    ∧ (create_players_table teams100 clean600).all (fun p => p.team_id.isSome) = true :=
  ⟨(players_mapping_miss teams100 clean600).1,
   (players_mapping_miss teams100 clean600).2.2 validate_ok_big⟩

def dupMatchIdMsg : String := "Duplicate match_ids found"

def matchCountMsg : String := "Unexpected match count (expected 1800-2000)"

def nullHomeIdMsg : String := "Matches contain NULL home_team_id (FK violation)"

def nullAwayIdMsg : String := "Matches contain NULL away_team_id (FK violation)"

def fkHomeMsg : String := "Matches reference non-existent home_team_ids"

def fkAwayMsg : String := "Matches reference non-existent away_team_ids"

def selfMatchMsg : String := "Found self-matches (home_team_id == away_team_id)"

def negHomeGoalsMsg : String := "Negative home_goals found"

def negAwayGoalsMsg : String := "Negative away_goals found"

def negHomeShotsMsg : String := "Negative home_shots found"

def homeSotMsg : String := "home_sot greater than home_shots"

def awaySotMsg : String := "away_sot greater than away_shots"

def homeShotAccMsg : String := "home_shot_accuracy above 100 percent"

def dateMsg : String := "Invalid date format"

def resultValMsg : String := "Invalid result values"

/-- The self-match filter of `validate_matches_base`
(`df[df['home_team_id'] == df['away_team_id']]`, pandas equality being
false on nulls). -/
def selfMatches (df : List EnhMatchRow) : List EnhMatchRow :=
  df.filter fun r => pdEq r.home_team_id r.away_team_id

/-- `(df['home_goals'] < 0).any()`. -/
def hasNegHomeGoals (df : List EnhMatchRow) : Bool :=
  df.any fun r => pdLt r.home_goals (some 0)

/-- `(df['away_goals'] < 0).any()`. -/
def hasNegAwayGoals (df : List EnhMatchRow) : Bool :=
  df.any fun r => pdLt r.away_goals (some 0)

/-- `validate_matches_base` of `validate_data.py`, over the enhanced base
table.  The date-parse check (`pd.to_datetime(..., errors='raise')`) is
parameterized by a predicate `dateOk`, since its acceptance set is a
property of the pandas library, and the null/column checks on always-written
columns are vacuous and omitted; checks appear in source order. -/
def validate_matches_base (dateOk : String → Bool) (df : List EnhMatchRow)
    (teams : List TeamRow) : Except String Unit :=
  if hasDup (df.map fun r => r.match_id) then .error dupMatchIdMsg
  else if df.length < 1800 ∨ 2000 < df.length then .error matchCountMsg
  else if df.any (fun r => r.home_team_id.isNone) then .error nullHomeIdMsg
  else if df.any (fun r => r.away_team_id.isNone) then .error nullAwayIdMsg
  else if (df.filterMap fun r => r.home_team_id).any
      (fun t => !((teams.map fun x => x.team_id).contains t)) then .error fkHomeMsg
  else if (df.filterMap fun r => r.away_team_id).any
      (fun t => !((teams.map fun x => x.team_id).contains t)) then .error fkAwayMsg
  else if selfMatches df ≠ [] then .error selfMatchMsg
  else if hasNegHomeGoals df then .error negHomeGoalsMsg
  else if hasNegAwayGoals df then .error negAwayGoalsMsg
  else if df.any (fun r => pdLt r.home_shots (some 0)) then .error negHomeShotsMsg
  else if df.any (fun r => pdGt r.home_sot r.home_shots) then .error homeSotMsg
  else if df.any (fun r => pdGt r.away_sot r.away_shots) then .error awaySotMsg
  else if df.any (fun r => pdGt r.home_shot_accuracy (some 100)) then .error homeShotAccMsg
  else if !(df.all fun r => dateOk r.date) then .error dateMsg
  else if df.any (fun r => !([resH, resA, resD].contains r.result)) then .error resultValMsg
  else .ok ()

def advCountMsg : String := "Unexpected advanced stats count (expected exactly 64)"

def advFKMsg : String := "Advanced stats reference non-existent match_ids"

def homePossMsg : String := "home_possession above 100 percent"

def awayPossMsg : String := "away_possession above 100 percent"

def possSumMsg : String := "Possession sum outside 100 percent tolerance band"

def negXgHomeMsg : String := "Negative home_xg found"

def negXgAwayMsg : String := "Negative away_xg found"

def homePassesMsg : String := "home_passes_completed greater than attempted"

def homePassAccMsg : String := "home_pass_accuracy above 100 percent"

/-- `adv_df[['home_possession', 'away_possession']].sum(axis=1)`: the
pandas row sum skips missing values, so a null possession contributes
zero (and a fully-null pair sums to zero). -/
def possessionSum (r : EnhAdvRow) : ℚ :=
  r.home_possession.getD 0 + r.away_possession.getD 0

/-- The rows flagged by the possession-sum tolerance filter
`possession_sum[(possession_sum < 98) | (possession_sum > 102)]`. -/
def possessionSumViolations (adv : List EnhAdvRow) : List EnhAdvRow :=
  adv.filter fun r => decide (possessionSum r < 98) || decide (102 < possessionSum r)

/-- The possession block of `validate_match_stats_advanced` (the guard on
the two possession columns existing always holds in this schema): each
column is filtered for values exceeding 100, then the row sums must lie
in the 98..102 band. -/
def possessionChecks (adv : List EnhAdvRow) : Except String Unit :=
  if adv.any (fun r => pdGt r.home_possession (some 100)) then .error homePossMsg
  else if adv.any (fun r => pdGt r.away_possession (some 100)) then .error awayPossMsg
  else if possessionSumViolations adv ≠ [] then .error possSumMsg
  else .ok ()

/-- `validate_match_stats_advanced` of `validate_data.py`, over the
enhanced advanced table and the enhanced base table (used only for its
`match_id` column). -/
def validate_match_stats_advanced (adv : List EnhAdvRow) (base : List EnhMatchRow) :
    Except String Unit :=
  if adv.length ≠ 64 then .error advCountMsg
  else if (adv.map fun r => r.match_id).any
      (fun i => !((base.map fun b => b.match_id).contains i)) then .error advFKMsg
  else
    match possessionChecks adv with
    | .error e => .error e
    | .ok () =>
      if (adv.filterMap fun r => r.home_xg).any (fun x => decide (x < 0)) then
        .error negXgHomeMsg
      else if (adv.filterMap fun r => r.away_xg).any (fun x => decide (x < 0)) then
        .error negXgAwayMsg
      else if adv.any (fun r => pdGt r.home_passes_completed r.home_passes_attempted) then
        .error homePassesMsg
      else if adv.any (fun r => pdGt r.home_pass_accuracy (some 100)) then
        .error homePassAccMsg
      else .ok ()

def statsFKMsg : String := "Player stats reference non-existent player_ids"

def statsCountMsg : String := "Unexpected player stats count (expected 600-800)"

def negGoalsColMsg : String := "Negative goals values found"

def negAssistsColMsg : String := "Negative assists values found"

def negShotsColMsg : String := "Negative shots values found"

def negSotColMsg : String := "Negative shots_on_target values found"

def negMinutesColMsg : String := "Negative minutes values found"

def negGamesColMsg : String := "Negative games values found"

def sotShotsMsg : String := "shots_on_target greater than shots"

def passesCompletedMsg : String := "passes_completed greater than passes"

def goalsShotsMsg : String := "goals greater than shots"

def passesPctMsg : String := "passes_pct above 100 percent"

def shotEffMsg : String := "shot_efficiency above 100 percent"

/-- `validate_players_stats` of `validate_data.py`, over the enhanced
player table and the `ref_players` table.  A null `player_id` lands in the
set difference against the reference ids (NaN is never a valid id), so it
counts as an FK violation, matching the pandas set arithmetic. -/
def validate_players_stats (df : List EnhPlayerRow) (ref : List PlayerRow) :
    Except String Unit :=
  if (df.map fun r => r.player_id).any
      (fun o => match o with
        | some i => !((ref.map fun p => p.player_id).contains i)
        | none => true) then .error statsFKMsg
  else if df.length < 600 ∨ 800 < df.length then .error statsCountMsg
  else if df.any (fun r => pdLt r.goals (some 0)) then .error negGoalsColMsg
  else if df.any (fun r => pdLt r.assists (some 0)) then .error negAssistsColMsg
  else if df.any (fun r => pdLt r.shots (some 0)) then .error negShotsColMsg
  else if df.any (fun r => pdLt r.shots_on_target (some 0)) then .error negSotColMsg
  else if df.any (fun r => pdLt r.minutes (some 0)) then .error negMinutesColMsg
  else if df.any (fun r => pdLt r.games (some 0)) then .error negGamesColMsg
  else if df.any (fun r => pdGt r.shots_on_target r.shots) then .error sotShotsMsg
  else if df.any (fun r => pdGt r.passes_completed r.passes) then .error passesCompletedMsg
  else if df.any (fun r => pdGt r.goals r.shots) then .error goalsShotsMsg
  else if df.any (fun r => pdGt r.passes_pct (some 100)) then .error passesPctMsg
  else if df.any (fun r => pdGt r.shot_efficiency (some 100)) then .error shotEffMsg
  else .ok ()

def standingsCountMsg : String := "Unexpected standings count (expected exactly 32)"

def wdlMsg : String := "wins plus draws plus losses not equal to played"

def pointsMsg : String := "Incorrect points calculation"

def negPlayedMsg : String := "Negative played values found"

def negWinsMsg : String := "Negative wins values found"

def negDrawsMsg : String := "Negative draws values found"

def negLossesMsg : String := "Negative losses values found"

def negGoalsForMsg : String := "Negative goals_for values found"

def negGoalsAgainstMsg : String := "Negative goals_against values found"

def negPointsMsg : String := "Negative points values found"

def winsPlayedMsg : String := "wins greater than played"

def drawsPlayedMsg : String := "draws greater than played"

def lossesPlayedMsg : String := "losses greater than played"

def rankDupMsg : String := "Duplicate ranks found in a group"

def winPctMsg : String := "win_percentage above 100 percent"

/-- The per-group duplicate-rank scan of `validate_standings`: for each
distinct group value, the ranks of that group must be pairwise distinct
(`len(group_df['rank'].unique()) != len(group_df)`). -/
def hasRankDup (df : List EnhStandingRow) : Bool :=
  ((df.map fun r => r.group).dedup).any fun g =>
    ((df.filter fun r => r.group == g).map fun r => r.rank).dedup.length
      != (df.filter fun r => r.group == g).length

/-- `validate_standings` of `validate_data.py`, over the enhanced
standings table; checks in source order. -/
def validate_standings (df : List EnhStandingRow) : Except String Unit :=
  if df.length ≠ 32 then .error standingsCountMsg
  else if (df.filter fun r => decide (r.wins + r.draws + r.losses ≠ r.played)) ≠ [] then
    .error wdlMsg
  else if (df.filter fun r => decide (r.points ≠ r.wins * 3 + r.draws)) ≠ [] then
    .error pointsMsg
  else if df.any (fun r => decide (r.played < 0)) then .error negPlayedMsg
  else if df.any (fun r => decide (r.wins < 0)) then .error negWinsMsg
  else if df.any (fun r => decide (r.draws < 0)) then .error negDrawsMsg
  else if df.any (fun r => decide (r.losses < 0)) then .error negLossesMsg
  else if df.any (fun r => decide (r.goals_for < 0)) then .error negGoalsForMsg
  else if df.any (fun r => decide (r.goals_against < 0)) then .error negGoalsAgainstMsg
  else if df.any (fun r => decide (r.points < 0)) then .error negPointsMsg
  else if df.any (fun r => decide (r.played < r.wins)) then .error winsPlayedMsg
  else if df.any (fun r => decide (r.played < r.draws)) then .error drawsPlayedMsg
  else if df.any (fun r => decide (r.played < r.losses)) then .error lossesPlayedMsg
  else if hasRankDup df then .error rankDupMsg
  else if df.any (fun r => pdGt r.win_percentage (some 100)) then .error winPctMsg
  else .ok ()

/-- `validate_all` of `validate_data.py`: the five groups in order,
stopping at the first failure. -/
def validate_all (dateOk : String → Bool) (teams : List TeamRow)
    (players : List PlayerRow) (baseE : List EnhMatchRow) (advE : List EnhAdvRow)
    (statsE : List EnhPlayerRow) (standingsE : List EnhStandingRow) :
    Except String Unit :=
  match validate_reference_tables teams players with
  | .error e => .error e
  | .ok () =>
    match validate_matches_base dateOk baseE teams with
    | .error e => .error e
    | .ok () =>
      match validate_match_stats_advanced advE baseE with
      | .error e => .error e
      | .ok () =>
        match validate_players_stats statsE players with
        | .error e => .error e
        | .ok () => validate_standings standingsE

def teamAName : String := "Team A"

def teamBName : String := "Team B"

def teamCName : String := "Team C"

/-- A scenario league fixture row: fixed metadata, parametric team names
and goal counts, all optional counters null. -/
def mkScenarioRow (h a : String) (hg ag : Int) : CleanLeagueRow :=
  { date := "2023-05-01", time := none, competition_name := "League X",
    season := "2022-23", home_team := h, away_team := a,
    home_goals := some hg, away_goals := some ag, home_shots := none,
    away_shots := none, home_sot := none, away_sot := none, home_fouls := none,
    away_fouls := none, home_corners := none, away_corners := none,
    home_yellow := none, away_yellow := none, home_red := none, away_red := none,
    referee := none }

/-- The spec's three-fixture scenario: Team A vs Team B twice, then
Team A vs Team C, with parametric goals, and zero World Cup rows. -/
def scenarioLeague (hg1 ag1 hg2 ag2 hg3 ag3 : Int) : List CleanLeagueRow :=
  [mkScenarioRow teamAName teamBName hg1 ag1,
   mkScenarioRow teamAName teamBName hg2 ag2,
   mkScenarioRow teamAName teamCName hg3 ag3]

/-- The Teams table the pipeline builds for the scenario. -/
def scenarioTeams (hg1 ag1 hg2 ag2 hg3 ag3 : Int) : List TeamRow :=
  create_teams_table (scenarioLeague hg1 ag1 hg2 ag2 hg3 ag3) []

/-- The split output the pipeline builds for the scenario. -/
def scenarioSplit (hg1 ag1 hg2 ag2 hg3 ag3 : Int) :
    List MatchBaseRow × List MatchStatsAdvRow :=
  split_matches
    (normalize_matches (scenarioTeams hg1 ag1 hg2 ag2 hg3 ag3)
      (scenarioLeague hg1 ag1 hg2 ag2 hg3 ag3) []).1
    (normalize_matches (scenarioTeams hg1 ag1 hg2 ag2 hg3 ag3)
      (scenarioLeague hg1 ag1 hg2 ag2 hg3 ag3) []).2

/-- The enhanced base table the pipeline builds for the scenario. -/
def scenarioBaseE (hg1 ag1 hg2 ag2 hg3 ag3 : Int) : List EnhMatchRow :=
  (derive_match_metrics (scenarioSplit hg1 ag1 hg2 ag2 hg3 ag3).1
    (scenarioSplit hg1 ag1 hg2 ag2 hg3 ag3).2).1

/-- C5 counterexample: with goals (1,0), (2,2), (0,3) all goals are
non-negative and there is no self-match, yet the validator does not pass:
it rejects the 3-team table with the cardinality message (3 is outside
the hard-coded 100..150 band), so "the Validator passes iff all three
matches have non-negative goals and no self-match" is false on this
input. -/
theorem small_fixture_claim_counterexample :
    hasNegHomeGoals (scenarioBaseE 1 0 2 2 0 3) = false
    ∧ hasNegAwayGoals (scenarioBaseE 1 0 2 2 0 3) = false
    ∧ selfMatches (scenarioBaseE 1 0 2 2 0 3) = []
    ∧ validate_all (fun _ => true) (scenarioTeams 1 0 2 2 0 3) []
        (scenarioBaseE 1 0 2 2 0 3) [] [] [] = .error teamCountMsg := by
  refine ⟨rfl, rfl, rfl, rfl⟩

set_option maxHeartbeats 1600000 in
/-- C5 (amended).  The pipeline yields Teams A=1, B=2, C=3 in first-seen
order, MatchBase ids 1..3 and zero advanced rows, as claimed; but the full
Validator never passes this fixture: it always fails with the team-count
regression message, whatever the goals.  Only the negative-goals and
self-match checks themselves pass iff all three matches have non-negative
goals (and there is never a self-match on these teams). -/
theorem small_fixture_scenario (hg1 ag1 hg2 ag2 hg3 ag3 : Int) :
    (scenarioTeams hg1 ag1 hg2 ag2 hg3 ag3).map teamKey =
      [(1, teamAName, leagueTag), (2, teamBName, leagueTag), (3, teamCName, leagueTag)]
    ∧ (scenarioSplit hg1 ag1 hg2 ag2 hg3 ag3).1.map (fun b => b.match_id) = [1, 2, 3]
    ∧ (scenarioSplit hg1 ag1 hg2 ag2 hg3 ag3).2 = []
    ∧ (∀ (dateOk : String → Bool) (players : List PlayerRow) (advE : List EnhAdvRow)
        (statsE : List EnhPlayerRow) (standingsE : List EnhStandingRow),
        validate_all dateOk (scenarioTeams hg1 ag1 hg2 ag2 hg3 ag3) players
          (scenarioBaseE hg1 ag1 hg2 ag2 hg3 ag3) advE statsE standingsE =
          .error teamCountMsg)
    ∧ ((hasNegHomeGoals (scenarioBaseE hg1 ag1 hg2 ag2 hg3 ag3) = false
        ∧ hasNegAwayGoals (scenarioBaseE hg1 ag1 hg2 ag2 hg3 ag3) = false
        ∧ selfMatches (scenarioBaseE hg1 ag1 hg2 ag2 hg3 ag3) = []) ↔
        (0 ≤ hg1 ∧ 0 ≤ ag1 ∧ 0 ≤ hg2 ∧ 0 ≤ ag2 ∧ 0 ≤ hg3 ∧ 0 ≤ ag3)) := by
  refine ⟨rfl, rfl, rfl, fun dateOk players advE statsE standingsE => rfl, ?_⟩
  have hH : hasNegHomeGoals (scenarioBaseE hg1 ag1 hg2 ag2 hg3 ag3) =
      (decide (hg1 < 0) || (decide (hg2 < 0) || (decide (hg3 < 0) || false))) := rfl
  have hA : hasNegAwayGoals (scenarioBaseE hg1 ag1 hg2 ag2 hg3 ag3) =
      (decide (ag1 < 0) || (decide (ag2 < 0) || (decide (ag3 < 0) || false))) := rfl
  have hS : selfMatches (scenarioBaseE hg1 ag1 hg2 ag2 hg3 ag3) = [] := rfl
  rw [hH, hA, hS]
  simp only [Bool.or_false, Bool.or_eq_false_iff, decide_eq_false_iff_not, not_lt,
    and_true, eq_self_iff_true]
  tauto

/-- Witness for C5 (amended) at goals (1,0), (2,2), (0,3). -/
theorem small_fixture_scenario_witness :
    (scenarioTeams 1 0 2 2 0 3).map teamKey =
      [(1, teamAName, leagueTag), (2, teamBName, leagueTag), (3, teamCName, leagueTag)]
    ∧ (hasNegHomeGoals (scenarioBaseE 1 0 2 2 0 3) = false
        ∧ hasNegAwayGoals (scenarioBaseE 1 0 2 2 0 3) = false
        ∧ selfMatches (scenarioBaseE 1 0 2 2 0 3) = []) :=
  ⟨(small_fixture_scenario 1 0 2 2 0 3).1,
   (small_fixture_scenario 1 0 2 2 0 3).2.2.2.2.2 (by norm_num)⟩

/-- A minimal base row with a given id, used to satisfy the advanced
validator's foreign-key lookup in concrete tables. -/
def mkBaseIdRow (mid : Int) : MatchBaseRow :=
  { match_id := mid, competition_name := worldCupName, season := "2022",
    date := "2022-11-21", time := none, home_team_id := some 1, away_team_id := some 2,
    home_goals := some 0, away_goals := some 0, home_shots := none, away_shots := none,
    home_sot := none, away_sot := none, home_fouls := none, away_fouls := none,
    home_corners := none, away_corners := none, home_yellow := none, away_yellow := none,
    home_red := none, away_red := none, venue := none, referee := none }

/-- A 64-row enhanced base table with match ids 1..64. -/
def base64 : List EnhMatchRow :=
  (List.range 64).map fun (i : Nat) => deriveMatchRow (mkBaseIdRow ((i : Int) + 1))

/-- An advanced row whose only data is a possession pair. -/
def mkPossRow (mid : Int) (hp ap : Option ℚ) : MatchStatsAdvRow :=
  { match_id := mid, home_xg := none, away_xg := none, home_possession := hp,
    away_possession := ap, home_passes_completed := none, home_passes_attempted := none,
    away_passes_completed := none, away_passes_attempted := none, home_tackles := none,
    away_tackles := none, home_interceptions := none, away_interceptions := none,
    home_clearances := none, away_clearances := none, home_saves := none,
    away_saves := none }

/-- A 64-row enhanced advanced table whose first row carries the given
possession pair; the other 63 rows are an even 50-50 split. -/
def advTable64 (hp ap : Option ℚ) : List EnhAdvRow :=
  (mkPossRow 1 hp ap ::
    (List.range 63).map fun (i : Nat) =>
      mkPossRow ((i : Int) + 2) (some 50) (some 50)).map deriveAdvRow

lemma advTable64_mem {hp ap : Option ℚ} {r : EnhAdvRow} (hr : r ∈ advTable64 hp ap) :
    r = deriveAdvRow (mkPossRow 1 hp ap) ∨
      ∃ k : Nat, r = deriveAdvRow (mkPossRow ((k : Int) + 2) (some 50) (some 50)) := by
  unfold advTable64 at hr
  rw [List.map_cons, List.mem_cons] at hr
  rcases hr with hr | hr
  · exact Or.inl hr
  · rw [List.map_map, List.mem_map] at hr
    obtain ⟨k, _, hk⟩ := hr
    exact Or.inr ⟨k, hk.symm⟩

lemma advTable64_length (hp ap : Option ℚ) : (advTable64 hp ap).length = 64 := by
  simp [advTable64]

lemma advTable64_ids (hp ap : Option ℚ) :
    (advTable64 hp ap).map (fun r => r.match_id) = intRange 1 64 := by
  have h64 : (64 : Nat) = 63 + 1 := rfl
  rw [h64, intRange_succ]
  unfold advTable64
  rw [List.map_map, List.map_cons, List.map_map]
  refine congrArg _ ?_
  unfold intRange
  refine List.map_congr_left fun k _ => ?_
  show (k : Int) + 2 = 1 + 1 + (k : Int)
  ring

lemma base64_ids : base64.map (fun b => b.match_id) = intRange 1 64 := by
  unfold base64 intRange
  rw [List.map_map]
  exact List.map_congr_left fun i _ => by
    show (i : Int) + 1 = 1 + (i : Int)
    ring

lemma advTable64_fk_false (hp ap : Option ℚ) :
    (((advTable64 hp ap).map fun r => r.match_id).any
      fun i => !((base64.map fun b => b.match_id).contains i)) = false := by
  rw [advTable64_ids, base64_ids]
  refine List.any_eq_false.2 fun i hi => ?_
  have hc : (intRange 1 64).contains i = true := by simpa [List.elem_iff] using hi
  rw [hc]
  decide

lemma advTable64_none_checks (hp ap : Option ℚ) :
    ((advTable64 hp ap).filterMap fun r => r.home_xg) = []
    ∧ ((advTable64 hp ap).filterMap fun r => r.away_xg) = []
    ∧ ((advTable64 hp ap).any fun r =>
        pdGt r.home_passes_completed r.home_passes_attempted) = false
    ∧ ((advTable64 hp ap).any fun r => pdGt r.home_pass_accuracy (some 100)) = false := by
  refine ⟨List.filterMap_eq_nil_iff.2 fun r hr => ?_,
    List.filterMap_eq_nil_iff.2 fun r hr => ?_,
    List.any_eq_false.2 fun r hr => ?_,
    List.any_eq_false.2 fun r hr => ?_⟩
  all_goals rcases advTable64_mem hr with h | ⟨k, h⟩ <;> subst h <;>
    simp [deriveAdvRow, mkPossRow, pdGt, pdLt]

/-- The possession-sum of a two-valued row is the plain sum. -/
lemma possSum_pair (mid : Int) (x y : ℚ) :
    possessionSum (deriveAdvRow (mkPossRow mid (some x) (some y))) = x + y := rfl

/-- Semantic characterization of the possession block: it accepts exactly
when every present possession value is at most 100 and every row sum lies
in the 98..102 band. -/
lemma possessionChecks_ok_iff (adv : List EnhAdvRow) :
    possessionChecks adv = .ok () ↔
      ∀ r ∈ adv,
        (∀ v : ℚ, r.home_possession = some v → v ≤ 100)
        ∧ (∀ v : ℚ, r.away_possession = some v → v ≤ 100)
        ∧ 98 ≤ possessionSum r ∧ possessionSum r ≤ 102 := by
  constructor
  · intro h r hr
    unfold possessionChecks at h
    split_ifs at h with h1 h2 h3
    have h1a : (adv.any fun r => pdGt r.home_possession (some 100)) = false := by
      simpa using h1
    have h2a : (adv.any fun r => pdGt r.away_possession (some 100)) = false := by
      simpa using h2
    have h3a : possessionSumViolations adv = [] := not_ne_iff.1 h3
    refine ⟨?_, ?_, ?_⟩
    · intro v hv
      have hb := List.any_eq_false.1 h1a r hr
      rw [hv] at hb
      simp only [pdGt, pdLt, decide_eq_true_eq] at hb
      exact le_of_not_lt hb
    · intro v hv
      have hb := List.any_eq_false.1 h2a r hr
      rw [hv] at hb
      simp only [pdGt, pdLt, decide_eq_true_eq] at hb
      exact le_of_not_lt hb
    · have hb := List.filter_eq_nil_iff.1 h3a r hr
      simp only [Bool.or_eq_true, decide_eq_true_eq, not_or, not_lt] at hb
      exact hb
  · intro hsem
    have c1 : (adv.any fun r => pdGt r.home_possession (some 100)) = false := by
      refine List.any_eq_false.2 fun r hr => ?_
      cases hp : r.home_possession with
      | none => simp [pdGt, pdLt]
      | some v =>
        have hb := (hsem r hr).1 v hp
        simp only [pdGt, pdLt, decide_eq_true_eq]
        exact not_lt.2 hb
    have c2 : (adv.any fun r => pdGt r.away_possession (some 100)) = false := by
      refine List.any_eq_false.2 fun r hr => ?_
      cases hp : r.away_possession with
      | none => simp [pdGt, pdLt]
      | some v =>
        have hb := (hsem r hr).2.1 v hp
        simp only [pdGt, pdLt, decide_eq_true_eq]
        exact not_lt.2 hb
    have c3 : possessionSumViolations adv = [] := by
      refine List.filter_eq_nil_iff.2 fun r hr => ?_
      simp only [Bool.or_eq_true, decide_eq_true_eq, not_or, not_lt]
      exact ⟨(hsem r hr).2.2.1, (hsem r hr).2.2.2⟩
    unfold possessionChecks
    rw [if_neg (by rw [c1]; exact Bool.false_ne_true),
      if_neg (by rw [c2]; exact Bool.false_ne_true),
      if_neg (not_ne_iff.2 c3)]

/-- Assembly of the advanced validator on an `advTable64` fixture whose
possession block succeeds. -/
lemma validate_advTable64_ok (hp ap : Option ℚ)
    (hposs : possessionChecks (advTable64 hp ap) = .ok ()) :
    validate_match_stats_advanced (advTable64 hp ap) base64 = .ok () := by
  obtain ⟨n1, n2, n3, n4⟩ := advTable64_none_checks hp ap
  unfold validate_match_stats_advanced
  rw [if_neg (not_ne_iff.2 (advTable64_length hp ap)),
    if_neg (by rw [advTable64_fk_false]; exact Bool.false_ne_true), hposs,
    if_neg (by rw [n1]; simp), if_neg (by rw [n2]; simp),
    if_neg (by rw [n3]; exact Bool.false_ne_true),
    if_neg (by rw [n4]; exact Bool.false_ne_true)]

lemma possChecks_neg_ok :
    possessionChecks (advTable64 (some (-1)) (some 100)) = .ok () := by
  refine (possessionChecks_ok_iff _).2 fun r hr => ?_
  rcases advTable64_mem hr with h | ⟨k, h⟩ <;> subst h
  · refine ⟨fun v hv => ?_, fun v hv => ?_, ?_, ?_⟩
    · cases Option.some.inj hv; norm_num
    · cases Option.some.inj hv; norm_num
    · rw [possSum_pair]; norm_num
    · rw [possSum_pair]; norm_num
  · refine ⟨fun v hv => ?_, fun v hv => ?_, ?_, ?_⟩
    · cases Option.some.inj hv; norm_num
    · cases Option.some.inj hv; norm_num
    · rw [possSum_pair]; norm_num
    · rw [possSum_pair]; norm_num

lemma possChecks_pass_ok :
    possessionChecks (advTable64 (some 61) (some (81 / 2))) = .ok () := by
  refine (possessionChecks_ok_iff _).2 fun r hr => ?_
  rcases advTable64_mem hr with h | ⟨k, h⟩ <;> subst h
  · refine ⟨fun v hv => ?_, fun v hv => ?_, ?_, ?_⟩
    · cases Option.some.inj hv; norm_num
    · cases Option.some.inj hv; norm_num
    · rw [possSum_pair]; norm_num
    · rw [possSum_pair]; norm_num
  · refine ⟨fun v hv => ?_, fun v hv => ?_, ?_, ?_⟩
    · cases Option.some.inj hv; norm_num
    · cases Option.some.inj hv; norm_num
    · rw [possSum_pair]; norm_num
    · rw [possSum_pair]; norm_num

lemma possChecks_90_err :
    possessionChecks (advTable64 (some 50) (some 40)) = .error possSumMsg := by
  have c1 : ((advTable64 (some 50) (some 40)).any
      fun r => pdGt r.home_possession (some 100)) = false := by
    refine List.any_eq_false.2 fun r hr => ?_
    rcases advTable64_mem hr with h | ⟨k, h⟩ <;> subst h <;>
      norm_num [deriveAdvRow, mkPossRow, pdGt, pdLt]
  have c2 : ((advTable64 (some 50) (some 40)).any
      fun r => pdGt r.away_possession (some 100)) = false := by
    refine List.any_eq_false.2 fun r hr => ?_
    rcases advTable64_mem hr with h | ⟨k, h⟩ <;> subst h <;>
      norm_num [deriveAdvRow, mkPossRow, pdGt, pdLt]
  have hmem : deriveAdvRow (mkPossRow 1 (some 50) (some 40)) ∈
      advTable64 (some 50) (some 40) := by
    unfold advTable64
    rw [List.map_cons]
    exact List.mem_cons_self _ _
  have c3 : deriveAdvRow (mkPossRow 1 (some 50) (some 40)) ∈
      possessionSumViolations (advTable64 (some 50) (some 40)) := by
    refine List.mem_filter.2 ⟨hmem, ?_⟩
    rw [possSum_pair]
    simp only [Bool.or_eq_true, decide_eq_true_eq]
    exact Or.inl (by norm_num)
  unfold possessionChecks
  rw [if_neg (by rw [c1]; exact Bool.false_ne_true),
    if_neg (by rw [c2]; exact Bool.false_ne_true),
    if_pos (List.ne_nil_of_mem c3)]

/-- C6 is false as stated: a home possession of -1 lies outside [0, 100],
yet with a partner value of 100 the pair sums to 99, inside the tolerance
band, and the advanced validator accepts the whole table — the code has
no lower-bound check on possession values. -/
theorem possession_range_counterexample :
    ((advTable64 (some (-1)) (some 100)).map fun r => r.home_possession).head? =
      some (some (-1))
    ∧ validate_match_stats_advanced (advTable64 (some (-1)) (some 100)) base64 =
        .ok () :=
  ⟨rfl, validate_advTable64_ok _ _ possChecks_neg_ok⟩

/-- C6 (amended).  The possession block accepts a table iff every present
possession value is at most 100 — there is no lower-bound (≥ 0) check —
and every row's possession sum, nulls contributing zero, lies in the
98..102 band; the pair (61, 40.5) passes the full advanced validator, and
a pair summing to 90 is rejected with the possession-sum failure. -/
theorem possession_validation (adv : List EnhAdvRow) :
    (possessionChecks adv = .ok () ↔
      ∀ r ∈ adv,
        (∀ v : ℚ, r.home_possession = some v → v ≤ 100)
        ∧ (∀ v : ℚ, r.away_possession = some v → v ≤ 100)
        ∧ 98 ≤ possessionSum r ∧ possessionSum r ≤ 102)
    ∧ validate_match_stats_advanced (advTable64 (some 61) (some (81 / 2))) base64 = .ok ()
    ∧ validate_match_stats_advanced (advTable64 (some 50) (some 40)) base64 =
        .error possSumMsg := by
  refine ⟨possessionChecks_ok_iff adv, validate_advTable64_ok _ _ possChecks_pass_ok, ?_⟩
  unfold validate_match_stats_advanced
  rw [if_neg (not_ne_iff.2 (advTable64_length _ _)),
    if_neg (by rw [advTable64_fk_false]; exact Bool.false_ne_true), possChecks_90_err]

/-- Witness for C6 (amended) at the singleton 50-50 table. -/
theorem possession_validation_witness :
    possessionChecks [deriveAdvRow (mkPossRow 1 (some 50) (some 50))] = .ok () :=
  ((possession_validation [deriveAdvRow (mkPossRow 1 (some 50) (some 50))]).1).2
    (by intro r hr
        rw [List.mem_singleton.1 hr]
        refine ⟨fun v hv => ?_, fun v hv => ?_, ?_, ?_⟩
        · cases Option.some.inj hv; norm_num
        · cases Option.some.inj hv; norm_num
        · rw [possSum_pair]; norm_num
        · rw [possSum_pair]; norm_num)

/-- C9.  In the possession-sum check, nulls are summed as zero: a row with
both possessions null sums to 0, is flagged by the tolerance filter, and
the possession block cannot succeed on any table containing it; a row
with exactly one present possession value passes the sum filter iff that
value lies in [98, 102]. -/
theorem possession_null_sum (adv : List EnhAdvRow) (r : EnhAdvRow) (hr : r ∈ adv) :
    (r.home_possession = none → r.away_possession = none →
      possessionSum r = 0 ∧ r ∈ possessionSumViolations adv
        ∧ possessionChecks adv ≠ .ok ())
    ∧ (∀ v : ℚ, r.home_possession = some v → r.away_possession = none →
        (r ∉ possessionSumViolations adv ↔ 98 ≤ v ∧ v ≤ 102))
    ∧ (∀ v : ℚ, r.home_possession = none → r.away_possession = some v →
        (r ∉ possessionSumViolations adv ↔ 98 ≤ v ∧ v ≤ 102)) := by
  refine ⟨?_, ?_, ?_⟩
  · intro h1 h2
    have hsum : possessionSum r = 0 := by simp [possessionSum, h1, h2]
    have hmem : r ∈ possessionSumViolations adv := by
      refine List.mem_filter.2 ⟨hr, ?_⟩
      rw [hsum]
      norm_num
    refine ⟨hsum, hmem, fun hok => ?_⟩
    unfold possessionChecks at hok
    split_ifs at hok with g1 g2 g3
    exact g3 (List.ne_nil_of_mem hmem)
  · intro v hv ha
    have hsum : possessionSum r = v := by simp [possessionSum, hv, ha]
    unfold possessionSumViolations
    rw [List.mem_filter]
    simp [hr, hsum, not_or, not_lt]
  · intro v hv ha
    have hsum : possessionSum r = v := by simp [possessionSum, hv, ha]
    unfold possessionSumViolations
    rw [List.mem_filter]
    simp [hr, hsum, not_or, not_lt]

/-- The two-row table of the C9 witness: one fully-null possession pair
and one single-value pair. -/
def advPairTable : List EnhAdvRow :=
  [deriveAdvRow (mkPossRow 1 none none), deriveAdvRow (mkPossRow 2 (some 99) none)]

/-- Witness for C9: the fully-null row sums to 0, is flagged and blocks
the possession checks; the single-value row with 99 passes the sum
filter. -/
theorem possession_null_sum_witness :
    (possessionSum (deriveAdvRow (mkPossRow 1 none none)) = 0
      ∧ deriveAdvRow (mkPossRow 1 none none) ∈ possessionSumViolations advPairTable
      ∧ possessionChecks advPairTable ≠ .ok ())
    ∧ deriveAdvRow (mkPossRow 2 (some 99) none) ∉ possessionSumViolations advPairTable :=
  ⟨(possession_null_sum advPairTable (deriveAdvRow (mkPossRow 1 none none))
      (List.mem_cons_self _ _)).1 rfl rfl,
   ((possession_null_sum advPairTable (deriveAdvRow (mkPossRow 2 (some 99) none))
      (List.mem_cons_of_mem _ (List.mem_cons_self _ _))).2.1 99 rfl rfl).2
     ⟨by norm_num, by norm_num⟩⟩

/-- A standings row built from a win/draw/loss record; `played` and
`points` are consistent by construction. -/
def mkStanding (g : String) (rk : Int) (tm : String) (w d l gf ga : Int) : StandingRow :=
  { group := g, rank := rk, team := tm, played := w + d + l, wins := w, draws := d,
    losses := l, goals_for := gf, goals_against := ga, goal_difference := gf - ga,
    points := w * 3 + d }

/-- One four-team group of the standings fixture. -/
def standingsGroup (g : String) : List StandingRow :=
  [mkStanding g 1 (String.append g "-1") 3 0 0 6 1,
   mkStanding g 2 (String.append g "-2") 1 1 1 4 4,
   mkStanding g 3 (String.append g "-3") 1 0 2 3 5,
   mkStanding g 4 (String.append g "-4") 0 1 2 2 5]

def groupNames : List String := ["A", "B", "C", "D", "E", "F", "G", "H"]

/-- An arithmetically-valid 32-row standings fixture: 8 groups of 4. -/
def standings32 : List StandingRow := groupNames.flatMap standingsGroup

/-- The same fixture with one `points` value perturbed by 1. -/
def standings32bad : List StandingRow :=
  match standings32 with
  | [] => []
  | r :: rest => { r with points := r.points + 1 } :: rest

/-- The conjunction of the standings validator's checks other than the two
arithmetic identities, exactly as the code states them: row count, the
seven non-negativity scans, the three bounds against `played`, the
per-group rank-uniqueness scan and the win-percentage bound. -/
def standingsOtherChecks (df : List EnhStandingRow) : Bool :=
  decide (df.length = 32) &&
  (!(df.any fun r => decide (r.played < 0)) &&
  (!(df.any fun r => decide (r.wins < 0)) &&
  (!(df.any fun r => decide (r.draws < 0)) &&
  (!(df.any fun r => decide (r.losses < 0)) &&
  (!(df.any fun r => decide (r.goals_for < 0)) &&
  (!(df.any fun r => decide (r.goals_against < 0)) &&
  (!(df.any fun r => decide (r.points < 0)) &&
  (!(df.any fun r => decide (r.played < r.wins)) &&
  (!(df.any fun r => decide (r.played < r.draws)) &&
  (!(df.any fun r => decide (r.played < r.losses)) &&
  (!hasRankDup df &&
   !(df.any fun r => pdGt r.win_percentage (some 100)))))))))))))

lemma validate_E32_ok :
    validate_standings (derive_standings_metrics standings32) = .ok () := by
  have c15 : ((derive_standings_metrics standings32).any
      fun r => pdGt r.win_percentage (some 100)) = false := by
    refine List.any_eq_false.2 fun r hr => ?_
    obtain ⟨s, hs, rfl⟩ := List.mem_map.1 hr
    obtain ⟨g, hg, hsg⟩ := List.mem_flatMap.1 hs
    simp only [standingsGroup, List.mem_cons, List.not_mem_nil, or_false] at hsg
    rcases hsg with h | h | h | h <;> subst h <;>
      norm_num [deriveStandingRow, mkStanding, pdGt, pdLt]
  unfold validate_standings
  rw [if_neg (by decide), if_neg (by decide), if_neg (by decide), if_neg (by decide),
    if_neg (by decide), if_neg (by decide), if_neg (by decide), if_neg (by decide),
    if_neg (by decide), if_neg (by decide), if_neg (by decide), if_neg (by decide),
    if_neg (by decide), if_neg (by decide),
    if_neg (by rw [c15]; exact Bool.false_ne_true)]

lemma validate_E32bad_err :
    validate_standings (derive_standings_metrics standings32bad) = .error pointsMsg := by
  unfold validate_standings
  rw [if_neg (by decide), if_neg (by decide), if_pos (by decide)]

set_option maxHeartbeats 2000000 in
/-- C7.  Standings arithmetic validation: if the validator accepts, every
row satisfies `wins + draws + losses = played` and
`points = wins * 3 + draws`; conversely those identities together with the
validator's other checks imply acceptance.  The arithmetically-valid
32-row fixture passes, and perturbing one `points` value makes the
validator fail with the points-calculation message. -/
theorem standings_arithmetic_validation (df : List EnhStandingRow) :
    (validate_standings df = .ok () →
      ∀ r ∈ df, r.wins + r.draws + r.losses = r.played
        ∧ r.points = r.wins * 3 + r.draws)
    ∧ ((∀ r ∈ df, r.wins + r.draws + r.losses = r.played
          ∧ r.points = r.wins * 3 + r.draws) →
        standingsOtherChecks df = true → validate_standings df = .ok ())
    ∧ validate_standings (derive_standings_metrics standings32) = .ok ()
    ∧ validate_standings (derive_standings_metrics standings32bad) = .error pointsMsg := by
  refine ⟨?_, ?_, validate_E32_ok, validate_E32bad_err⟩
  · intro h r hr
    unfold validate_standings at h
    by_cases h1 : df.length ≠ 32
    · rw [if_pos h1] at h; cases h
    rw [if_neg h1] at h
    by_cases h2 : (df.filter fun r => decide (r.wins + r.draws + r.losses ≠ r.played)) ≠ []
    · rw [if_pos h2] at h; cases h
    rw [if_neg h2] at h
    by_cases h3 : (df.filter fun r => decide (r.points ≠ r.wins * 3 + r.draws)) ≠ []
    · rw [if_pos h3] at h; cases h
    have a1 := List.filter_eq_nil_iff.1 (not_ne_iff.1 h2) r hr
    have a2 := List.filter_eq_nil_iff.1 (not_ne_iff.1 h3) r hr
    simp only [decide_eq_true_eq] at a1 a2
    exact ⟨not_ne_iff.1 a1, not_ne_iff.1 a2⟩
  · intro harith hoc
    simp only [standingsOtherChecks, Bool.and_eq_true, Bool.not_eq_true', decide_eq_true_eq]
      at hoc
    obtain ⟨q1, q2, q3, q4, q5, q6, q7, q8, q9, q10, q11, q12, q13⟩ := hoc
    unfold validate_standings
    rw [if_neg (not_ne_iff.2 q1),
      if_neg (not_ne_iff.2 (List.filter_eq_nil_iff.2 fun r hr => by
        simp only [decide_eq_true_eq]
        exact not_ne_iff.2 (harith r hr).1)),
      if_neg (not_ne_iff.2 (List.filter_eq_nil_iff.2 fun r hr => by
        simp only [decide_eq_true_eq]
        exact not_ne_iff.2 (harith r hr).2)),
      if_neg (by rw [q2]; exact Bool.false_ne_true),
      if_neg (by rw [q3]; exact Bool.false_ne_true),
      if_neg (by rw [q4]; exact Bool.false_ne_true),
      if_neg (by rw [q5]; exact Bool.false_ne_true),
      if_neg (by rw [q6]; exact Bool.false_ne_true),
      if_neg (by rw [q7]; exact Bool.false_ne_true),
      if_neg (by rw [q8]; exact Bool.false_ne_true),
      if_neg (by rw [q9]; exact Bool.false_ne_true),
      if_neg (by rw [q10]; exact Bool.false_ne_true),
      if_neg (by rw [q11]; exact Bool.false_ne_true),
      if_neg (by rw [q12]; exact Bool.false_ne_true),
      if_neg (by rw [q13]; exact Bool.false_ne_true)]

/-- Witness for C7: on the valid 32-row fixture the validator accepts, and
the claim theorem then yields both arithmetic identities on every row. -/
theorem standings_arithmetic_validation_witness :
    (derive_standings_metrics standings32).all
      (fun r => decide (r.wins + r.draws + r.losses = r.played) &&
        decide (r.points = r.wins * 3 + r.draws)) = true :=
  List.all_eq_true.2 fun r hr => by
    have h := (standings_arithmetic_validation (derive_standings_metrics standings32)).1
      validate_E32_ok r hr
    simp [h.1, h.2]

end FootInsites
